import Mathlib

/-!
Verification development for the `defendaminecraft-web` repository.

The development shallowly embeds the request/verification flow of the
"bot verification" API router (`src/unnamed/part_000`), the GitHub OAuth
state handling (`src/routes/auth.js`), and the Supabase-backed key-record
update semantics (`src/config/supabase.js`).

Modelling conventions:
* JavaScript strings that travel through the token pipeline are modelled as
  their UTF-8 byte lists (`List Nat`, entries `< 256`); strings that are only
  compared or searched are modelled as Lean `String`.
* `Math.random()` draws are explicit rational parameters in `[0, 1)`.
* `Date.now()` is an explicit `Int` (milliseconds) parameter.
* Fallible steps return `Option`; HTTP error responses are explicit values.
-/

namespace DefendAMinecraft

/-- UTF-8 bytes of an ASCII string literal (for ASCII text the code points
are the UTF-8 bytes). -/
def ascii (s : String) : List Nat := s.data.map Char.toNat

/-- Boolean list-prefix test (structural, kernel-evaluable). -/
def isPrefixB : List Char → List Char → Bool
  | [], _ => true
  | _ :: _, [] => false
  | a :: as, b :: bs => a == b && isPrefixB as bs

/-- Boolean list-infix test. -/
def isInfixB (sub : List Char) : List Char → Bool
  | [] => sub.isEmpty
  | b :: bs => isPrefixB sub (b :: bs) || isInfixB sub bs

/-- JavaScript `String.prototype.includes`: substring containment. -/
def jsIncludes (s sub : String) : Bool := isInfixB sub.data s.data

/-- JavaScript `String.prototype.toLowerCase` (ASCII-relevant part). -/
def jsToLower (s : String) : String := ⟨s.data.map Char.toLower⟩

/-- JavaScript `String.prototype.startsWith`. -/
def jsStartsWith (s p : String) : Bool := decide (p.data <+: s.data)

/-- JavaScript `x || dflt` for byte-list-valued strings: `undefined` and the
empty string are falsy and select the default. -/
def jsOrBytes (x : Option (List Nat)) (dflt : List Nat) : List Nat :=
  match x with
  | none => dflt
  | some s => if s = [] then dflt else s

/-- JavaScript `x || dflt` for `String`-valued options. -/
def jsOrStr (x : Option String) (dflt : String) : String :=
  match x with
  | none => dflt
  | some s => if s = "" then dflt else s

/-- Truthiness of an optional string (`undefined` and `""` are falsy). -/
def truthyS (x : Option String) : Bool :=
  match x with
  | none => false
  | some s => s != ""

/-! ## API-key gate (`validateApiKey` middleware and the in-file mock
`DatabaseService`, `src/unnamed/part_000` lines 4–16 and 69–107) -/

/-- The record returned by the mock `DatabaseService.validateApiKey`. -/
structure MockKeyRecord where
  id : String
  user_id : String
  usage_count : Nat
  last_used_at : Option String
deriving DecidableEq, Repr

/-- The fixed demo record the mock lookup hands back. -/
def demoKeyRecord : MockKeyRecord :=
  { id := "demo-key-id", user_id := "demo-user-id",
    usage_count := 0, last_used_at := none }

/-- Mock `DatabaseService.validateApiKey` (`src/unnamed/part_000` lines 4–16):
accepts the demo literal or any key starting with `da_live_`. -/
def dbValidateApiKey (key : String) : Option MockKeyRecord :=
  if key == "da_live_demo123456789abcdef" || jsStartsWith key "da_live_" then
    some demoKeyRecord
  else
    none

/-- A structured 4xx/5xx error body: status plus
`\x7b success:false, error, message \x7d`. -/
structure GateError where
  status : Nat
  success : Bool
  error : String
  message : String
deriving DecidableEq, Repr

/-- Response for a missing API key (middleware lines 72–78). -/
def missingKeyResponse : GateError :=
  { status := 401, success := false, error := "API key required",
    message := "Please provide a valid API key in the X-API-Key header" }

/-- Response for a failed key lookup (middleware lines 83–89). -/
def invalidKeyResponse : GateError :=
  { status := 401, success := false, error := "Invalid API key",
    message := "The provided API key is invalid or inactive" }

/-- Column payload of a `DatabaseService.updateApiKey` call: only the columns
present in the update object are set. -/
structure ApiKeyUpdates where
  last_used_at : Option String
  usage_count : Option Nat
deriving DecidableEq, Repr

/-- Outcome of the `validateApiKey` middleware: a rejection response, or
acceptance carrying the looked-up record together with the
`updateApiKey(id, updates)` call the middleware issues. -/
inductive GateResult where
  | reject (e : GateError)
  | accept (keyData : MockKeyRecord) (updateCall : String × ApiKeyUpdates)
deriving DecidableEq, Repr

/-- The `validateApiKey` middleware (`src/unnamed/part_000` lines 69–107).
`apiKey = none` models a request where header, body and query all lack a
(truthy) key. `now` is the `new Date().toISOString()` timestamp string. -/
def validateApiKeyGate (apiKey : Option String) (now : String) : GateResult :=
  match apiKey with
  | none => .reject missingKeyResponse
  | some k =>
    match dbValidateApiKey k with
    | none => .reject invalidKeyResponse
    | some keyData =>
      .accept keyData
        (keyData.id,
         { last_used_at := some now, usage_count := some (keyData.usage_count + 1) })

/-! ## The router's key-record update (`DatabaseService.updateApiKey`,
`src/unnamed/part_000` lines 17–20)

The router defines and uses its own in-file mock `DatabaseService`; its
`updateApiKey` ignores the id and the update payload and returns
success without touching any stored record. -/

/-- A row of the `api_keys` table (the record shape of
`src/database/supabase-setup.sql` a key store would hold), used to state
what the mock update leaves untouched. -/
structure ApiKeyRow where
  id : String
  user_id : String
  name : String
  key_value : String
  environment : String
  is_active : Bool
  last_used_at : Option String
  usage_count : Nat
  created_at : String
deriving DecidableEq, Repr

/-- The mock `DatabaseService.updateApiKey(keyId, updates)` the router
actually calls (`src/unnamed/part_000` lines 17–20): a no-op on every key
store, returning success. -/
def mockUpdateApiKey (store : List ApiKeyRow) (_keyId : String)
    (_u : ApiKeyUpdates) : List ApiKeyRow × Bool :=
  (store, true)

/-- A concrete stored key row (usage count 7, never used) exhibiting that
the gate mutates nothing. -/
def c8Row : ApiKeyRow :=
  { id := "demo-key-id", user_id := "u1", name := "Default API Key",
    key_value := "da_live_w", environment := "development", is_active := true,
    last_used_at := none, usage_count := 7, created_at := "2025-01-01" }

/-! ## Verification scorer (`performVerification`,
`src/unnamed/part_000` lines 286–342)

The user-agent/geo parses done by the `useragent` and `geoip-lite` libraries
are inputs (`agentFamily`, `osFamily`, `geoCountry`). -/

/-- The `botIndicators` array (lines 295–308): seven boolean heuristics.
`rGeo` is the `Math.random()` draw of the geographic coin flip. -/
def botIndicatorsOf (userAgent agentFamily osFamily : String)
    (geoCountry : Option String) (rGeo : ℚ) : List Bool :=
  [ (userAgent == "") || decide (userAgent.length < 10)
  , jsIncludes (jsToLower userAgent) "bot"
  , jsIncludes (jsToLower userAgent) "crawler"
  , jsIncludes (jsToLower userAgent) "spider"
  , agentFamily == "Other"
  , (osFamily == "") || (osFamily == "Other")
  , match geoCountry with
    | none => false
    | some c => (c == "CN" || c == "RU" || c == "KP") && decide (rGeo > 7/10)
  ]

/-- The score `botScore = botIndicators.filter(Boolean).length /
botIndicators.length` (line 310). -/
def botScoreOf (inds : List Bool) : ℚ :=
  ((inds.filter (fun b => b)).length : ℚ) / (inds.length : ℚ)

/-- The threshold decision of the scorer. -/
structure Decision where
  confidence : ℚ
  isBot : Bool
  action : String
deriving DecidableEq, Repr

/-- Threshold mapping of the bot score (lines 312–322). `rConf` is the
`Math.random()` draw of the allow-branch confidence. -/
def baseDecision (botScore rConf : ℚ) : Decision :=
  if botScore > 6/10 then
    { confidence := 1/10, isBot := true, action := "block" }
  else if botScore > 3/10 then
    { confidence := 3/10, isBot := false, action := "challenge" }
  else
    { confidence := min (9/10) (1/2 + rConf * (2/5)), isBot := false,
      action := "allow" }

/-- The value returned by `performVerification`. -/
structure VerifyResult where
  success : Bool
  confidence : ℚ
  isBot : Bool
  action : String
deriving DecidableEq, Repr

/-! ## base64url (Node `Buffer.toString('base64url')` /
`Buffer.from(tok, 'base64url')`)

Bytes are `Nat` values `< 256`; an encoded token is the list of character
codes of the base64url string (unpadded, `-`/`_` alphabet). The decoder is
strict on the alphabet; Node is more lenient on malformed input, which only
widens the set of tokens the verify route treats as well-formed. -/

/-- Map a 6-bit value to its base64url character code. -/
def b64Char (v : Nat) : Nat :=
  if v < 26 then 65 + v
  else if v < 52 then 97 + (v - 26)
  else if v < 62 then 48 + (v - 52)
  else if v = 62 then 45
  else 95

/-- Inverse of `b64Char`. -/
def b64Val (c : Nat) : Option Nat :=
  if 65 ≤ c ∧ c ≤ 90 then some (c - 65)
  else if 97 ≤ c ∧ c ≤ 122 then some (c - 97 + 26)
  else if 48 ≤ c ∧ c ≤ 57 then some (c - 48 + 52)
  else if c = 45 then some 62
  else if c = 95 then some 63
  else none

/-- base64url-encode a byte list (three bytes per four characters, unpadded
tail). -/
def b64Encode : List Nat → List Nat
  | [] => []
  | [b1] => [b64Char (b1 / 4), b64Char (b1 % 4 * 16)]
  | [b1, b2] =>
    [b64Char (b1 / 4), b64Char (b1 % 4 * 16 + b2 / 16), b64Char (b2 % 16 * 4)]
  | b1 :: b2 :: b3 :: rest =>
    b64Char (b1 / 4) :: b64Char (b1 % 4 * 16 + b2 / 16) ::
    b64Char (b2 % 16 * 4 + b3 / 64) :: b64Char (b3 % 64) :: b64Encode rest

/-- base64url-decode a character-code list. -/
def b64Decode : List Nat → Option (List Nat)
  | [] => some []
  | [_] => none
  | [c1, c2] =>
    match b64Val c1, b64Val c2 with
    | some v1, some v2 => some [v1 * 4 + v2 / 16]
    | _, _ => none
  | [c1, c2, c3] =>
    match b64Val c1, b64Val c2, b64Val c3 with
    | some v1, some v2, some v3 => some [v1 * 4 + v2 / 16, v2 % 16 * 16 + v3 / 4]
    | _, _, _ => none
  | c1 :: c2 :: c3 :: c4 :: rest =>
    match b64Val c1, b64Val c2, b64Val c3, b64Val c4, b64Decode rest with
    | some v1, some v2, some v3, some v4, some bs =>
      some ((v1 * 4 + v2 / 16) :: (v2 % 16 * 16 + v3 / 4) :: (v3 % 4 * 64 + v4) :: bs)
    | _, _, _, _, _ => none

/-! ## JSON (`JSON.stringify` of the challenge object, `JSON.parse` of a
decoded token)

`JSON.parse` is a platform builtin; the parser below covers the JSON grammar
over UTF-8 byte lists, with two noted simplifications on inputs the issuer
never produces: surrogate-pair combination of adjacent `\uXXXX` escapes is
not modelled (each escape becomes the UTF-8 bytes of its code point), and
leading-zero rejection for numbers is not enforced. -/

/-- JSON values. Strings hold the decoded (unescaped) UTF-8 bytes. -/
inductive Json where
  | null : Json
  | bool : Bool → Json
  | num : ℚ → Json
  | str : List Nat → Json
  | arr : List Json → Json
  | obj : List (List Nat × Json) → Json

/-- Lowercase hex digit character code for a nibble. -/
def hexDigit (n : Nat) : Nat := if n < 10 then 48 + n else 97 + (n - 10)

/-- Escaping of one string byte under `JSON.stringify`: quote, backslash, the short
control escapes, `\u00XX` for the other control bytes, everything else
verbatim. -/
def escapeByte (b : Nat) : List Nat :=
  if b = 34 then [92, 34]
  else if b = 92 then [92, 92]
  else if b = 8 then [92, 98]
  else if b = 9 then [92, 116]
  else if b = 10 then [92, 110]
  else if b = 12 then [92, 102]
  else if b = 13 then [92, 114]
  else if b < 32 then [92, 117, 48, 48, hexDigit (b / 16), hexDigit (b % 16)]
  else [b]

/-- Escape a whole string body. -/
def escapeBytes (l : List Nat) : List Nat := l.flatMap escapeByte

/-- Little-endian decimal digits, fuel-indexed so the recursion is
structural (`fuel ≥ n` yields all digits). -/
def natDigitsAux : Nat → Nat → List Nat
  | 0, _ => []
  | _ + 1, 0 => []
  | fuel + 1, n => n % 10 :: natDigitsAux fuel (n / 10)

/-- Decimal digit byte list of a natural number (`JSON.stringify` of an
integer-valued non-negative number). -/
def natDigitsBytes (n : Nat) : List Nat :=
  if n = 0 then [48] else (natDigitsAux n n).reverse.map (fun d => 48 + d)

/-- Decimal digit byte list of an integer. -/
def intDigitsBytes (n : Int) : List Nat :=
  if n < 0 then 45 :: natDigitsBytes n.natAbs else natDigitsBytes n.toNat

/-- Parse a hex digit byte. -/
def parseHex (b : Nat) : Option Nat :=
  if 48 ≤ b ∧ b ≤ 57 then some (b - 48)
  else if 97 ≤ b ∧ b ≤ 102 then some (b - 97 + 10)
  else if 65 ≤ b ∧ b ≤ 70 then some (b - 65 + 10)
  else none

/-- Simple (single-character) string escapes accepted by `JSON.parse`. -/
def unescapeChar (e : Nat) : Option Nat :=
  if e = 34 then some 34
  else if e = 92 then some 92
  else if e = 47 then some 47
  else if e = 98 then some 8
  else if e = 102 then some 12
  else if e = 110 then some 10
  else if e = 114 then some 13
  else if e = 116 then some 9
  else none

/-- UTF-8 bytes of a code point `< 0x10000` (the range of one `\uXXXX`). -/
def utf8Bytes (n : Nat) : List Nat :=
  if n < 128 then [n]
  else if n < 2048 then [192 + n / 64, 128 + n % 64]
  else [224 + n / 4096, 128 + n / 64 % 64, 128 + n % 64]

/-- Parse a JSON string body (input starts after the opening quote); returns
the decoded bytes and the remaining input. -/
def parseStringBody : List Nat → Option (List Nat × List Nat)
  | [] => none
  | b :: rest =>
    if b = 34 then some ([], rest)
    else if b = 92 then
      match rest with
      | [] => none
      | e :: rest2 =>
        if e = 117 then
          match rest2 with
          | h1 :: h2 :: h3 :: h4 :: rest3 =>
            match parseHex h1, parseHex h2, parseHex h3, parseHex h4 with
            | some v1, some v2, some v3, some v4 =>
              match parseStringBody rest3 with
              | some (s, r) =>
                some (utf8Bytes (v1 * 4096 + v2 * 256 + v3 * 16 + v4) ++ s, r)
              | none => none
            | _, _, _, _ => none
          | _ => none
        else
          match unescapeChar e with
          | some c =>
            match parseStringBody rest2 with
            | some (s, r) => some (c :: s, r)
            | none => none
          | none => none
    else if b < 32 then none
    else
      match parseStringBody rest with
      | some (s, r) => some (b :: s, r)
      | none => none

/-- JSON whitespace. -/
def isWsByte (b : Nat) : Bool := b = 32 || b = 9 || b = 10 || b = 13

/-- Drop leading JSON whitespace. -/
def skipWs : List Nat → List Nat
  | [] => []
  | b :: rest => if isWsByte b then skipWs rest else b :: rest

/-- Decimal digit byte. -/
def isDigitByte (b : Nat) : Bool := 48 ≤ b && b ≤ 57

/-- Value of a digit byte list (most significant first). -/
def digitsVal (ds : List Nat) : Nat := ds.foldl (fun a d => a * 10 + (d - 48)) 0

/-- Parse an optional JSON fraction part; yields its rational value
(0 when absent) and the remaining input. -/
def parseFrac (l : List Nat) : Option (ℚ × List Nat) :=
  match l with
  | [] => some (0, [])
  | b :: r =>
    if b = 46 then
      let fs := r.takeWhile isDigitByte
      if fs = [] then none
      else some ((digitsVal fs : ℚ) / (10 : ℚ) ^ fs.length, r.drop fs.length)
    else some (0, b :: r)

/-- Parse an optional JSON exponent part; yields the power-of-ten multiplier
(1 when absent) and the remaining input. -/
def parseExp (l : List Nat) : Option (ℚ × List Nat) :=
  match l with
  | [] => some (1, [])
  | b :: r =>
    if b = 101 ∨ b = 69 then
      let signAndRest : Int × List Nat :=
        match r with
        | [] => (1, [])
        | c :: r2 => if c = 45 then (-1, r2) else if c = 43 then (1, r2) else (1, c :: r2)
      let es := signAndRest.2.takeWhile isDigitByte
      if es = [] then none
      else some ((10 : ℚ) ^ (signAndRest.1 * (digitsVal es : Int)), signAndRest.2.drop es.length)
    else some (1, b :: r)

/-- Parse the digits, fraction and exponent of a JSON number whose optional
minus sign was already consumed. -/
def parseNumberBody (neg : Bool) (l1 : List Nat) : Option (ℚ × List Nat) :=
  let ds := l1.takeWhile isDigitByte
  if ds = [] then none
  else
    match parseFrac (l1.drop ds.length) with
    | none => none
    | some (f, l3) =>
      match parseExp l3 with
      | none => none
      | some (m, l4) =>
        some ((if neg then -1 else 1) * ((digitsVal ds : ℚ) + f) * m, l4)

/-- Parse a JSON number. -/
def parseNumber (l : List Nat) : Option (ℚ × List Nat) :=
  match l with
  | [] => parseNumberBody false []
  | b :: r => if b = 45 then parseNumberBody true r else parseNumberBody false (b :: r)

/-- The remaining input cannot extend the number just parsed: it is empty or
starts with a byte that is neither a digit nor `.`/`e`/`E`. -/
def numStop (rest : List Nat) : Prop :=
  rest = [] ∨ ∃ r t, rest = r :: t ∧ isDigitByte r = false ∧ r ≠ 46 ∧ r ≠ 101 ∧ r ≠ 69

mutual

/-- Parse one JSON value (fuel-indexed recursion over the nesting). -/
def parseVal : Nat → List Nat → Option (Json × List Nat)
  | 0, _ => none
  | f + 1, l =>
    match skipWs l with
    | [] => none
    | b :: rest =>
      if b = 34 then
        match parseStringBody rest with
        | some (s, r) => some (.str s, r)
        | none => none
      else if b = 123 then
        match skipWs rest with
        | 125 :: r => some (.obj [], r)
        | r' =>
          match parseMembers f r' with
          | some (ms, r) => some (.obj ms, r)
          | none => none
      else if b = 91 then
        match skipWs rest with
        | 93 :: r => some (.arr [], r)
        | r' =>
          match parseElems f r' with
          | some (es, r) => some (.arr es, r)
          | none => none
      else if b = 110 then
        match rest with
        | 117 :: 108 :: 108 :: r => some (.null, r)
        | _ => none
      else if b = 116 then
        match rest with
        | 114 :: 117 :: 101 :: r => some (.bool true, r)
        | _ => none
      else if b = 102 then
        match rest with
        | 97 :: 108 :: 115 :: 101 :: r => some (.bool false, r)
        | _ => none
      else
        match parseNumber (b :: rest) with
        | some (q, r) => some (.num q, r)
        | none => none

/-- Parse the members of a JSON object (input starts at the first key's
quote, whitespace allowed). -/
def parseMembers : Nat → List Nat → Option (List (List Nat × Json) × List Nat)
  | 0, _ => none
  | f + 1, l =>
    match skipWs l with
    | [] => none
    | b :: rest =>
      if b = 34 then
        match parseStringBody rest with
        | none => none
        | some (key, r1) =>
          match skipWs r1 with
          | 58 :: r2 =>
            match parseVal f r2 with
            | none => none
            | some (v, r3) =>
              match skipWs r3 with
              | 44 :: r4 =>
                match parseMembers f r4 with
                | some (ms, r5) => some ((key, v) :: ms, r5)
                | none => none
              | 125 :: r4 => some ([(key, v)], r4)
              | _ => none
          | _ => none
      else none

/-- Parse the elements of a JSON array. -/
def parseElems : Nat → List Nat → Option (List Json × List Nat)
  | 0, _ => none
  | f + 1, l =>
    match parseVal f l with
    | none => none
    | some (v, r1) =>
      match skipWs r1 with
      | 44 :: r2 =>
        match parseElems f r2 with
        | some (es, r3) => some (v :: es, r3)
        | none => none
      | 93 :: r2 => some ([v], r2)
      | _ => none

end

/-- Whole-document parse over a byte list: one value, everything else
whitespace. -/
def parseJsonBytes (l : List Nat) : Option Json :=
  match parseVal (l.length + 1) l with
  | some (j, rest) => if skipWs rest = [] then some j else none
  | none => none

/-- Last-wins object field lookup (`JSON.parse` keeps the last duplicate). -/
def jsonField (j : Json) (key : List Nat) : Option Json :=
  match j with
  | .obj ms => (ms.filter (fun m => m.1 = key)).getLast?.map (fun m => m.2)
  | _ => none

/-- A field read as a string (JS `===` against a string literal only succeeds
on strings). -/
def jsonStrField (j : Json) (key : List Nat) : Option (List Nat) :=
  match jsonField j key with
  | some (.str s) => some s
  | _ => none

/-- A field read as a number. -/
def jsonNumField (j : Json) (key : List Nat) : Option ℚ :=
  match jsonField j key with
  | some (.num q) => some q
  | _ => none

/-! ## Challenge issuance (`POST /v1/challenge`,
`src/unnamed/part_000` lines 110–137) -/

/-- The challenge object the endpoint builds (line 112–117). Text fields are
UTF-8 byte lists. -/
structure Challenge where
  id : List Nat
  timestamp : Int
  difficulty : List Nat
  type : List Nat
deriving DecidableEq, Repr

/-- The challenge built from a request body: `difficulty` and `type` default
to `'medium'` / `'checkbox'` when absent or falsy. `uuid` is the
`crypto.randomUUID()` draw, `now` is `Date.now()`. -/
def issuedChallenge (uuid : List Nat) (now : Int)
    (bodyDifficulty bodyType : Option (List Nat)) : Challenge :=
  { id := uuid, timestamp := now,
    difficulty := jsOrBytes bodyDifficulty (ascii "medium"),
    type := jsOrBytes bodyType (ascii "checkbox") }

/-- The bytes of `JSON.stringify(challenge)`: keys in insertion order, no
whitespace. -/
def stringifyChallenge (c : Challenge) : List Nat :=
  ascii "\x7b\"id\":\"" ++ escapeBytes c.id ++
  ascii "\",\"timestamp\":" ++ intDigitsBytes c.timestamp ++
  ascii ",\"difficulty\":\"" ++ escapeBytes c.difficulty ++
  ascii "\",\"type\":\"" ++ escapeBytes c.type ++
  ascii "\"\x7d"

/-- Token minting, `Buffer.from(JSON.stringify(ch)).toString(b64url)`
(line 120). -/
def encodeChallengeToken (c : Challenge) : List Nat :=
  b64Encode (stringifyChallenge c)

/-- Token decoding, `JSON.parse(Buffer.from(token, b64url).toString())`
(verify route, line 157): `none` models the `catch` branch. -/
def decodeToken (tok : List Nat) : Option Json :=
  match b64Decode tok with
  | none => none
  | some bs => parseJsonBytes bs

/-- The JSON value a well-formed challenge token decodes to. -/
def challengeJson (c : Challenge) : Json :=
  .obj [ (ascii "id", .str c.id)
       , (ascii "timestamp", .num (c.timestamp : ℚ))
       , (ascii "difficulty", .str c.difficulty)
       , (ascii "type", .str c.type) ]

/-! ## The scorer itself (`performVerification`, lines 286–342) -/

/-- The scorer `performVerification`: indicators, threshold decision, then the
checkbox-only simulated pass/fail roll (`rSucc` is that
`Math.random()` draw). For every other challenge type the result is
`success = !isBot` with the threshold decision's confidence and action. -/
def performVerification (challenge : Json) (userAgent agentFamily osFamily : String)
    (geoCountry : Option String) (rGeo rConf rSucc : ℚ) : VerifyResult :=
  let inds := botIndicatorsOf userAgent agentFamily osFamily geoCountry rGeo
  let d := baseDecision (botScoreOf inds) rConf
  if jsonStrField challenge (ascii "type") = some (ascii "checkbox") then
    let success := !d.isBot && decide (rSucc > 1/20)
    { success := success,
      confidence := if success then d.confidence else 1/10,
      isBot := d.isBot,
      action := if success then "allow" else "block" }
  else
    { success := !d.isBot, confidence := d.confidence, isBot := d.isBot,
      action := d.action }

/-! ## Verify route (`POST /v1/verify`, lines 140–220) -/

/-- Response of the verify route: either a structured error (no verification
result is computed on that path) or the scorer's result. -/
inductive VerifyResponse where
  | err (status : Nat) (error message : String)
  | ok (result : VerifyResult)
deriving DecidableEq, Repr

/-- The verify route body up to the scorer call: missing-token check,
token decoding, expiry check, then `performVerification`.
`token = none` models a missing or falsy `req.body.token`.
A challenge whose `timestamp` field is absent or non-numeric passes the
expiry check (`Date.now() - undefined > 300000` is a `NaN` comparison,
hence false). -/
def verifyHandler (token : Option (List Nat)) (now : Int)
    (userAgent agentFamily osFamily : String) (geoCountry : Option String)
    (rGeo rConf rSucc : ℚ) : VerifyResponse :=
  match token with
  | none => .err 400 "Missing token" "Challenge token is required"
  | some tok =>
    match decodeToken tok with
    | none => .err 400 "Invalid token" "Challenge token is malformed"
    | some challenge =>
      let expired :=
        match jsonNumField challenge (ascii "timestamp") with
        | some ts => decide ((now : ℚ) - ts > 300000)
        | none => false
      if expired then .err 400 "Token expired" "Challenge token has expired"
      else
        .ok (performVerification challenge userAgent agentFamily osFamily
              geoCountry rGeo rConf rSucc)

/-! ## Stats aggregation (`processAnalytics`, lines 345–394) -/

/-- One outcome-log row as the aggregator reads it. `created_at` is the
row's timestamp in epoch milliseconds (the code extracts the ISO date
substring; the day index below is the same grouping key). `verification_time`
and `country_code` are optional and filtered on truthiness. -/
structure LogRow where
  result : String
  verification_time : Option ℚ
  country_code : Option String
  created_at : Int
deriving DecidableEq, Repr

/-- The calendar-day grouping key of a row
(`new Date(log.created_at).toISOString().split('T')[0]`, order-isomorphic to
the day index of the timestamp). -/
def dayOf (r : LogRow) : Int := r.created_at / 86400000

/-- One `daily_breakdown` bucket. -/
structure DayStat where
  day : Int
  total : Nat
  successful : Nat
  blocked : Nat
deriving DecidableEq, Repr

/-- Add one row into a bucket (lines 376–378). -/
def addRow (r : LogRow) (c : DayStat) : DayStat :=
  { c with
    total := c.total + 1,
    successful := c.successful + (if r.result = "success" then 1 else 0),
    blocked := c.blocked + (if r.result = "blocked" then 1 else 0) }

/-- Add one row into the bucket list keyed by day, keeping first-seen key
order (the `dailyData` object accumulation, lines 370–379). -/
def bumpDay (d : Int) (r : LogRow) : List DayStat → List DayStat
  | [] => [addRow r { day := d, total := 0, successful := 0, blocked := 0 }]
  | c :: rest => if c.day = d then addRow r c :: rest else c :: bumpDay d r rest

/-- Fold all rows into day buckets. -/
def groupDaily (rows : List LogRow) : List DayStat :=
  rows.foldl (fun acc r => bumpDay (dayOf r) r acc) []

/-- Stable insertion of a bucket into a day-sorted list. -/
def insertDay (c : DayStat) : List DayStat → List DayStat
  | [] => [c]
  | x :: rest => if c.day ≤ x.day then c :: x :: rest else x :: insertDay c rest

/-- Sort buckets ascending by day
(`.sort(([a],[b]) => new Date(a) - new Date(b))`, line 382; stable comparator
sort modelled as insertion sort). -/
def sortDays : List DayStat → List DayStat
  | [] => []
  | c :: rest => insertDay c (sortDays rest)

/-- A country frequency entry. -/
structure CountryCount where
  country : String
  count : Nat
deriving DecidableEq, Repr

/-- Accumulate a country into the frequency list, keeping first-seen order
(the `countries` object, lines 357–362). -/
def bumpCountry (c : String) : List CountryCount → List CountryCount
  | [] => [{ country := c, count := 1 }]
  | x :: rest =>
    if x.country = c then { x with count := x.count + 1 } :: rest
    else x :: bumpCountry c rest

/-- Stable insertion for the descending-by-count sort of `topCountries`. -/
def insertCountry (c : CountryCount) : List CountryCount → List CountryCount
  | [] => [c]
  | x :: rest =>
    if c.count > x.count then c :: x :: rest else x :: insertCountry c rest

/-- Sort country entries descending by count (stable). -/
def sortCountries : List CountryCount → List CountryCount
  | [] => []
  | c :: rest => insertCountry c (sortCountries rest)

/-- The aggregator's output record. `successRate` and `averageResponseTime`
are kept as exact rationals (the code rounds them to two decimals with
`toFixed(2)`; the rounding is presentation-only and not claim-relevant). -/
structure AnalyticsStats where
  totalVerifications : Nat
  successfulVerifications : Nat
  blockedAttempts : Nat
  successRate : ℚ
  averageResponseTime : ℚ
  topCountries : List CountryCount
  dailyBreakdown : List DayStat
deriving Repr

/-- The aggregator `processAnalytics` (lines 345–394): pure aggregation over
the rows. -/
def processAnalytics (rawData : List LogRow) : AnalyticsStats :=
  let totalVerifications := rawData.length
  let successfulVerifications :=
    (rawData.filter (fun log => log.result = "success")).length
  let blockedAttempts :=
    (rawData.filter (fun log => log.result = "blocked")).length
  let responseTimes :=
    (rawData.filter (fun log =>
      match log.verification_time with
      | some v => decide (v ≠ 0)
      | none => false)).map (fun log => log.verification_time.getD 0)
  let countries :=
    rawData.foldl (fun acc log =>
      match log.country_code with
      | some c => if c ≠ "" then bumpCountry c acc else acc
      | none => acc) []
  { totalVerifications := totalVerifications
    successfulVerifications := successfulVerifications
    blockedAttempts := blockedAttempts
    successRate :=
      if totalVerifications > 0 then
        (successfulVerifications : ℚ) / (totalVerifications : ℚ) * 100
      else 0
    averageResponseTime :=
      if responseTimes.length > 0 then
        responseTimes.sum / (responseTimes.length : ℚ)
      else 0
    topCountries := (sortCountries countries).take 5
    dailyBreakdown :=
      sortDays (groupDaily rawData) }

/-! ## OAuth state handling (`src/routes/auth.js`) -/

/-- The value stored per pending OAuth state (lines 108–111). -/
structure OAuthStateData where
  created : Int
  redirectUrl : String
deriving DecidableEq, Repr

/-- The pending-state map, insertion-ordered. -/
abbrev StateMap : Type := List (String × OAuthStateData)

/-- Lookup, `oauthStates.get(state)`. -/
def statesGet (m : StateMap) (k : String) : Option OAuthStateData :=
  match m with
  | [] => none
  | e :: rest => if e.1 = k then some e.2 else statesGet rest k

/-- Deletion, `oauthStates.delete(state)`. -/
def statesDelete (m : StateMap) (k : String) : StateMap :=
  List.filter (fun e => e.1 != k) m

/-- Insertion, `oauthStates.set(state, data)`: replace in place, or append. -/
def statesSet (m : StateMap) (k : String) (v : OAuthStateData) : StateMap :=
  if (statesGet m k).isSome then
    m.map (fun e => if e.1 = k then (k, v) else e)
  else m ++ [(k, v)]

/-- The sweep `cleanupExpiredStates` (lines 367–377): drop entries strictly
older than five minutes. -/
def cleanupExpiredStates (now : Int) (m : StateMap) : StateMap :=
  List.filter (fun e => decide (¬ (now - e.2.created > 300000))) m

/-- The login route `GET /auth/github` (lines 96–124): store the fresh state,
then run the
opportunistic sweep. `clientIdSet` models `GITHUB_CLIENT_ID` being
configured; when unset the route errors out without touching the map. -/
def githubLogin (m : StateMap) (clientIdSet : Bool) (newState : String)
    (now : Int) (redirect : Option String) : StateMap :=
  if clientIdSet then
    cleanupExpiredStates now
      (statesSet m newState { created := now, redirectUrl := jsOrStr redirect "/dashboard" })
  else m

/-- Outcome of the callback route, up to the token exchange: a
`/login?error=...` redirect, or entry into the exchange with the stored
state data (everything from line 147 on). -/
inductive CallbackStep where
  | redirectError (err : String)
  | tokenExchange (sd : OAuthStateData)
deriving DecidableEq, Repr

/-- The callback route `GET /auth/github/callback` (lines 127–146): error
passthrough, missing
parameters, state lookup, then single-use deletion before the exchange. -/
def githubCallback (m : StateMap) (code state error : Option String) :
    CallbackStep × StateMap :=
  if truthyS error then (.redirectError (error.getD ""), m)
  else if !truthyS code || !truthyS state then (.redirectError "missing_parameters", m)
  else
    let s := state.getD ""
    match statesGet m s with
    | none => (.redirectError "invalid_state", m)
    | some sd => (.tokenExchange sd, statesDelete m s)

/-! ## Fixed inputs for the non-checkbox scorer analysis -/

/-- A decoded challenge of the non-checkbox type `puzzle`. -/
def c7Challenge : Json :=
  challengeJson (issuedChallenge (ascii "cex-id") 0 none (some (ascii "puzzle")))

/-- Scorer inputs of an ordinary browser request: every bot indicator is
false, independently of the geo draw (no geo record). -/
def c7Indicators (rGeo : ℚ) : List Bool :=
  botIndicatorsOf "Mozilla/5.0 (X11; Linux x86_64)" "Firefox" "Linux" none rGeo

/-- Final `success` of `performVerification` on the `puzzle` challenge with
the ordinary browser inputs, as a function of the three random draws. -/
def c7SuccessOfDraws (rGeo rConf rSucc : ℚ) : Bool :=
  (performVerification c7Challenge "Mozilla/5.0 (X11; Linux x86_64)"
    "Firefox" "Linux" none rGeo rConf rSucc).success

/-- The constantly-true function of three draws. -/
def constTrueOfDraws (_ _ _ : ℚ) : Bool := true

/-- Bot score of the ordinary browser inputs as a function of the geo draw. -/
def c7ScoreOfDraw (rGeo : ℚ) : ℚ := botScoreOf (c7Indicators rGeo)

/-- The constantly-zero function of one draw. -/
def constZeroOfDraw (_ : ℚ) : ℚ := 0

end DefendAMinecraft

namespace DefendAMinecraft

/-! # Theorems -/

/-- Helper: the ordinary browser indicator vector is all-false for every geo
draw (the geo indicator short-circuits on a missing geo record). -/
theorem c7Indicators_eq (rGeo : ℚ) :
    c7Indicators rGeo = [false, false, false, false, false, false, false] := rfl

/-- Helper: a bot score of an all-false indicator vector is zero. -/
theorem botScoreOf_allFalse :
    botScoreOf [false, false, false, false, false, false, false] = 0 := by
  have h : List.filter (fun b => b) [false, false, false, false, false, false, false] =
      ([] : List Bool) := rfl
  simp [botScoreOf, h]

/-- C1: the scorer's threshold mapping. For all scorer inputs, with
`botScore = countTrue / total` over the indicator vector:
`botScore > 0.6` gives the block decision with confidence 0.1 and
`isBot = true`; `0.3 < botScore ≤ 0.6` gives the challenge decision with
confidence 0.3; `botScore ≤ 0.3` gives the allow decision with confidence in
`[0.5, 0.9]`; the score is a deterministic function of the indicator
vector with exact boundaries at 0.3 and 0.6. -/
theorem c1_threshold_decision (ua af osf : String) (geo : Option String)
    (rGeo rConf : ℚ) (inds : List Bool)
    (hinds : inds = botIndicatorsOf ua af osf geo rGeo)
    (h0 : 0 ≤ rConf) :
    botScoreOf inds = (inds.countP (fun b => b) : ℚ) / (inds.length : ℚ) ∧
    (botScoreOf inds > 6/10 →
      baseDecision (botScoreOf inds) rConf =
        { confidence := 1/10, isBot := true, action := "block" }) ∧
    ((3/10 < botScoreOf inds ∧ botScoreOf inds ≤ 6/10) →
      baseDecision (botScoreOf inds) rConf =
        { confidence := 3/10, isBot := false, action := "challenge" }) ∧
    (botScoreOf inds ≤ 3/10 →
      (baseDecision (botScoreOf inds) rConf).action = "allow" ∧
      (baseDecision (botScoreOf inds) rConf).isBot = false ∧
      1/2 ≤ (baseDecision (botScoreOf inds) rConf).confidence ∧
      (baseDecision (botScoreOf inds) rConf).confidence ≤ 9/10) := by
  refine ⟨?_, ?_, ?_, ?_⟩
  · simp [botScoreOf, List.countP_eq_length_filter]
  · intro h
    simp [baseDecision, if_pos h]
  · rintro ⟨h1, h2⟩
    have h6 : ¬ (botScoreOf inds > 6/10) := not_lt.mpr h2
    rw [baseDecision, if_neg h6, if_pos h1]
  · intro h
    have h6 : ¬ (botScoreOf inds > 6/10) :=
      not_lt.mpr (le_trans h (by norm_num))
    have h3 : ¬ (botScoreOf inds > 3/10) := not_lt.mpr h
    rw [baseDecision, if_neg h6, if_neg h3]
    refine ⟨rfl, rfl, le_min (by norm_num) ?_, min_le_left _ _⟩
    have := mul_nonneg h0 (by norm_num : (0:ℚ) ≤ 2/5)
    linarith

/-- Witness for C1 at the `curl/7.1` inputs with `rConf = 1/2`. -/
theorem c1_threshold_decision_witness :
    ([true, false, false, false, false, false, false] =
      botIndicatorsOf "curl/7.1" "curl" "Linux" none 0) ∧
    (0 : ℚ) ≤ 1/2 ∧
    (botScoreOf [true, false, false, false, false, false, false] =
      (([true, false, false, false, false, false, false].countP (fun b => b) : ℚ)) /
        (([true, false, false, false, false, false, false].length : ℚ)) ∧
    (botScoreOf [true, false, false, false, false, false, false] > 6/10 →
      baseDecision (botScoreOf [true, false, false, false, false, false, false]) (1/2) =
        { confidence := 1/10, isBot := true, action := "block" }) ∧
    ((3/10 < botScoreOf [true, false, false, false, false, false, false] ∧
        botScoreOf [true, false, false, false, false, false, false] ≤ 6/10) →
      baseDecision (botScoreOf [true, false, false, false, false, false, false]) (1/2) =
        { confidence := 3/10, isBot := false, action := "challenge" }) ∧
    (botScoreOf [true, false, false, false, false, false, false] ≤ 3/10 →
      (baseDecision (botScoreOf [true, false, false, false, false, false, false]) (1/2)).action = "allow" ∧
      (baseDecision (botScoreOf [true, false, false, false, false, false, false]) (1/2)).isBot = false ∧
      1/2 ≤ (baseDecision (botScoreOf [true, false, false, false, false, false, false]) (1/2)).confidence ∧
      (baseDecision (botScoreOf [true, false, false, false, false, false, false]) (1/2)).confidence ≤ 9/10)) :=
  ⟨rfl, by norm_num,
    c1_threshold_decision "curl/7.1" "curl" "Linux" none 0 (1/2) _ rfl (by norm_num)⟩

/-- C4 counterexample: at the claimed input (`curl/7.1`, only the length
indicator true) the indicator vector has seven entries, not eight, so the
bot score is 1/7, not 1/8. -/
theorem c4_indicator_count_counterexample :
    (botIndicatorsOf "curl/7.1" "curl" "Linux" none (1/2)).length = 7 ∧
    botScoreOf (botIndicatorsOf "curl/7.1" "curl" "Linux" none (1/2)) = 1/7 ∧
    (1/7 : ℚ) ≠ 1/8 := by
  have h : botIndicatorsOf "curl/7.1" "curl" "Linux" none (1/2) =
      [true, false, false, false, false, false, false] := rfl
  refine ⟨rfl, ?_, by norm_num⟩
  rw [h]
  have hf : List.filter (fun b => b) [true, false, false, false, false, false, false] =
      [true] := rfl
  simp [botScoreOf, hf]

/-- C4 (amended): with userAgent `curl/7.1` and only the length indicator
true, the vector has seven indicators, `botScore = 1/7 ≈ 0.143`, and the
threshold decision is allow. -/
theorem c4_curl_allow (af osf : String) (geo : Option String) (rGeo rConf : ℚ)
    (hinds : botIndicatorsOf "curl/7.1" af osf geo rGeo =
      [true, false, false, false, false, false, false]) :
    (botIndicatorsOf "curl/7.1" af osf geo rGeo).length = 7 ∧
    botScoreOf (botIndicatorsOf "curl/7.1" af osf geo rGeo) = 1/7 ∧
    (baseDecision (botScoreOf (botIndicatorsOf "curl/7.1" af osf geo rGeo)) rConf).action =
      "allow" := by
  rw [hinds]
  have hf : List.filter (fun b => b) [true, false, false, false, false, false, false] =
      [true] := rfl
  have hs : botScoreOf [true, false, false, false, false, false, false] = 1/7 := by
    simp [botScoreOf, hf]
  refine ⟨rfl, hs, ?_⟩
  rw [hs, baseDecision, if_neg (by norm_num), if_neg (by norm_num)]

/-- Witness for C4 (amended) at concrete parse results. -/
theorem c4_curl_allow_witness :
    (botIndicatorsOf "curl/7.1" "curl" "Linux" none (1/2) =
      [true, false, false, false, false, false, false]) ∧
    ((botIndicatorsOf "curl/7.1" "curl" "Linux" none (1/2)).length = 7 ∧
     botScoreOf (botIndicatorsOf "curl/7.1" "curl" "Linux" none (1/2)) = 1/7 ∧
     (baseDecision (botScoreOf (botIndicatorsOf "curl/7.1" "curl" "Linux" none (1/2))) 0).action =
       "allow") :=
  ⟨rfl, c4_curl_allow "curl" "Linux" none (1/2) 0 rfl⟩

/-- C5 counterexample: the response to a supplied key whose lookup fails is
401 with error string `Invalid API key`; no field of the body is the error
code `invalid_key` the claim names. -/
theorem c5_invalid_key_string_counterexample :
    validateApiKeyGate (some "not-a-key") "2025-01-01T00:00:00.000Z" =
      .reject invalidKeyResponse ∧
    invalidKeyResponse.status = 401 ∧
    invalidKeyResponse.error = "Invalid API key" ∧
    invalidKeyResponse.error ≠ "invalid_key" ∧
    invalidKeyResponse.message ≠ "invalid_key" :=
  ⟨rfl, rfl, rfl, by decide, by decide⟩

/-- C5 (amended): a missing key yields 401 with error `API key required`;
a supplied key whose lookup fails yields 401 with error `Invalid API key`;
the two failures differ in their error fields. -/
theorem c5_key_gate_errors (now k : String) (hk : dbValidateApiKey k = none) :
    validateApiKeyGate none now = .reject missingKeyResponse ∧
    validateApiKeyGate (some k) now = .reject invalidKeyResponse ∧
    missingKeyResponse.status = 401 ∧ invalidKeyResponse.status = 401 ∧
    missingKeyResponse.error = "API key required" ∧
    invalidKeyResponse.error = "Invalid API key" ∧
    missingKeyResponse.error ≠ invalidKeyResponse.error := by
  refine ⟨rfl, ?_, rfl, rfl, rfl, rfl, by decide⟩
  simp [validateApiKeyGate, hk]

/-- Witness for C5 (amended) at a concrete rejected key. -/
theorem c5_key_gate_errors_witness :
    dbValidateApiKey "not-a-key" = none ∧
    (validateApiKeyGate none "t0" = .reject missingKeyResponse ∧
     validateApiKeyGate (some "not-a-key") "t0" = .reject invalidKeyResponse ∧
     missingKeyResponse.status = 401 ∧ invalidKeyResponse.status = 401 ∧
     missingKeyResponse.error = "API key required" ∧
     invalidKeyResponse.error = "Invalid API key" ∧
     missingKeyResponse.error ≠ invalidKeyResponse.error) :=
  ⟨rfl, c5_key_gate_errors "t0" "not-a-key" rfl⟩

/-- C10: the mock lookup accepts exactly the keys starting with `da_live_`
(the demo literal itself starts with it), always returning the demo record
with `usage_count = 0`; the invalid-key rejection is reachable exactly for
supplied keys without that start. -/
theorem c10_da_live_acceptance (k now : String) :
    (dbValidateApiKey k = some demoKeyRecord ↔ jsStartsWith k "da_live_" = true) ∧
    demoKeyRecord.usage_count = 0 ∧
    (validateApiKeyGate (some k) now = .reject invalidKeyResponse ↔
      jsStartsWith k "da_live_" = false) := by
  cases hp : jsStartsWith k "da_live_" with
  | true =>
    refine ⟨⟨fun _ => rfl, fun _ => ?_⟩, rfl, ⟨fun hg => ?_, fun hf => ?_⟩⟩
    · simp [dbValidateApiKey, hp]
    · simp [validateApiKeyGate, dbValidateApiKey, hp] at hg
    · cases hf
  | false =>
    have hlit : (k == "da_live_demo123456789abcdef") = false := by
      cases hb : (k == "da_live_demo123456789abcdef") with
      | false => rfl
      | true =>
        have hk : k = "da_live_demo123456789abcdef" := eq_of_beq hb
        rw [hk] at hp
        exact absurd hp (by decide)
    have hnone : dbValidateApiKey k = none := by
      simp [dbValidateApiKey, hlit, hp]
    refine ⟨⟨fun h => ?_, fun h => ?_⟩, rfl, ⟨fun _ => rfl, fun _ => ?_⟩⟩
    · rw [hnone] at h; cases h
    · cases h
    · simp [validateApiKeyGate, hnone]

/-- C7 counterexample: on a `puzzle`-type (non-checkbox) challenge in the
allow region, the returned `success` is the constant-true function of the
three random draws — no random pass/fail roll can make it fail, refuting
the claim for challenges "of any type". -/
theorem c7_no_roll_counterexample :
    c7SuccessOfDraws = constTrueOfDraws ∧
    c7ScoreOfDraw = constZeroOfDraw ∧
    jsonStrField c7Challenge (ascii "type") = some (ascii "puzzle") := by
  refine ⟨?_, ?_, rfl⟩
  · funext rGeo rConf rSucc
    have h6 : ¬ ((0:ℚ) > 6/10) := by norm_num
    have h3 : ¬ ((0:ℚ) > 3/10) := by norm_num
    simp only [c7SuccessOfDraws, constTrueOfDraws, performVerification]
    rw [if_neg (by decide :
        ¬ jsonStrField c7Challenge (ascii "type") = some (ascii "checkbox"))]
    show (!(baseDecision (botScoreOf (c7Indicators rGeo)) rConf).isBot) = true
    rw [c7Indicators_eq, botScoreOf_allFalse, baseDecision, if_neg h6, if_neg h3]
    rfl
  · funext rGeo
    rw [c7ScoreOfDraw, c7Indicators_eq, botScoreOf_allFalse, constZeroOfDraw]

/-- C7 (amended): the extra random pass/fail roll exists only for
checkbox-type challenges: for every checkbox challenge whose bot score is in
the allow region there is a draw (any value ≤ 0.05) under which the returned
result is a failure. -/
theorem c7_checkbox_roll_can_fail (challenge : Json) (ua af osf : String)
    (geo : Option String) (rGeo rConf : ℚ)
    (hty : jsonStrField challenge (ascii "type") = some (ascii "checkbox"))
    (hallow : botScoreOf (botIndicatorsOf ua af osf geo rGeo) ≤ 3/10) :
    ∃ rSucc : ℚ, 0 ≤ rSucc ∧ rSucc < 1 ∧
      (performVerification challenge ua af osf geo rGeo rConf rSucc).success = false := by
  refine ⟨0, le_refl 0, by norm_num, ?_⟩
  have hroll : decide ((0:ℚ) > 1/20) = false := decide_eq_false (by norm_num)
  simp [performVerification, hty, hroll]

/-- Witness for C7 (amended) at a concrete checkbox challenge in the allow
region. -/
theorem c7_checkbox_roll_can_fail_witness :
    jsonStrField (challengeJson (issuedChallenge (ascii "w1") 5 none none))
      (ascii "type") = some (ascii "checkbox") ∧
    botScoreOf (botIndicatorsOf "Mozilla/5.0 (X11; Linux x86_64)" "Firefox"
      "Linux" none 0) ≤ 3/10 ∧
    (∃ rSucc : ℚ, 0 ≤ rSucc ∧ rSucc < 1 ∧
      (performVerification (challengeJson (issuedChallenge (ascii "w1") 5 none none))
        "Mozilla/5.0 (X11; Linux x86_64)" "Firefox" "Linux" none 0 (1/2) rSucc).success =
        false) :=
  have hsc : botScoreOf (botIndicatorsOf "Mozilla/5.0 (X11; Linux x86_64)" "Firefox"
      "Linux" none 0) ≤ 3/10 := by
    rw [show botIndicatorsOf "Mozilla/5.0 (X11; Linux x86_64)" "Firefox" "Linux" none 0 =
        [false, false, false, false, false, false, false] from rfl, botScoreOf_allFalse]
    norm_num
  ⟨rfl, hsc,
    c7_checkbox_roll_can_fail _ "Mozilla/5.0 (X11; Linux x86_64)" "Firefox" "Linux"
      none 0 (1/2) rfl hsc⟩

/-- C8 counterexample: an accepted request issues the claimed update call,
but executing that call through the router's own
`DatabaseService.updateApiKey` — the in-file mock, a no-op — leaves the
stored row untouched: its usage count stays 7, which is not the previous
count plus one, and its `last_used_at` stays unset instead of becoming the
current time. -/
theorem c8_mock_update_noop_counterexample :
    validateApiKeyGate (some "da_live_w") "t1" =
      .accept demoKeyRecord ("demo-key-id",
        { last_used_at := some "t1", usage_count := some 1 }) ∧
    mockUpdateApiKey [c8Row] "demo-key-id"
        { last_used_at := some "t1", usage_count := some 1 } = ([c8Row], true) ∧
    c8Row.id = "demo-key-id" ∧
    c8Row.usage_count = 7 ∧
    c8Row.last_used_at = none ∧
    (7 : Nat) ≠ 7 + 1 ∧
    (none : Option String) ≠ some "t1" :=
  ⟨rfl, rfl, rfl, rfl, rfl, by decide, by decide⟩

/-- C8 (amended): on every accepted request the middleware issues exactly
the update call `(keyData.id, payload)` with payload naming only
`last_used_at := now` and `usage_count := keyData.usage_count + 1` — and
the mock lookup's record always carries `usage_count = 0`, so the issued
count is always 1 — but the router's `DatabaseService.updateApiKey` is the
in-file mock, a no-op: every key store passes through unchanged, so no
field of any key record is changed by the gate. -/
theorem c8_update_call_and_noop (k now : String) (kd : MockKeyRecord)
    (store : List ApiKeyRow) (keyId : String) (u : ApiKeyUpdates)
    (hacc : dbValidateApiKey k = some kd) :
    validateApiKeyGate (some k) now =
      .accept kd (kd.id, { last_used_at := some now,
                           usage_count := some (kd.usage_count + 1) }) ∧
    kd.usage_count = 0 ∧
    mockUpdateApiKey store keyId u = (store, true) := by
  have hkd : kd = demoKeyRecord := by
    rw [dbValidateApiKey] at hacc
    split_ifs at hacc with h
    exact (Option.some.inj hacc).symm
  exact ⟨by simp [validateApiKeyGate, hacc], by rw [hkd]; rfl, rfl⟩

/-- Witness for C8 (amended) at a demo key and a one-row store. -/
theorem c8_update_call_and_noop_witness :
    dbValidateApiKey "da_live_w" = some demoKeyRecord ∧
    (validateApiKeyGate (some "da_live_w") "t1" =
      .accept demoKeyRecord ("demo-key-id",
        { last_used_at := some "t1", usage_count := some 1 }) ∧
    demoKeyRecord.usage_count = 0 ∧
    mockUpdateApiKey [c8Row] "demo-key-id"
        { last_used_at := some "t1", usage_count := some 1 } = ([c8Row], true)) :=
  ⟨rfl, c8_update_call_and_noop "da_live_w" "t1" demoKeyRecord [c8Row]
    "demo-key-id" { last_used_at := some "t1", usage_count := some 1 } rfl⟩

/-- Helper: a lookup misses after filtering out every entry with the key. -/
theorem statesGet_filter_none (m : StateMap) (k : String)
    (p : String × OAuthStateData → Bool)
    (h : ∀ e ∈ m, e.1 = k → p e = false) :
    statesGet (List.filter p m) k = none := by
  induction m with
  | nil => rfl
  | cons e rest ih =>
    have ih' := ih (fun e' he' hk => h e' (List.mem_cons_of_mem _ he') hk)
    cases hp : p e with
    | false => rw [List.filter_cons, hp]; simpa using ih'
    | true =>
      have he1 : e.1 ≠ k := by
        intro hk
        rw [h e (List.mem_cons_self e rest) hk] at hp
        cases hp
      rw [List.filter_cons, hp]
      simpa [statesGet, he1] using ih'

/-- Helper: deleting a state removes it from lookup. -/
theorem statesGet_delete_self (m : StateMap) (k : String) :
    statesGet (statesDelete m k) k = none := by
  apply statesGet_filter_none
  intro e _ hk
  simp [hk]

/-- Helper: with unique keys, every entry carrying the looked-up key holds
the looked-up value. -/
theorem statesGet_some_of_mem (m : StateMap) (k : String)
    (e : String × OAuthStateData) (d : OAuthStateData)
    (hN : (m.map Prod.fst).Nodup) (he : e ∈ m) (hk : e.1 = k)
    (hg : statesGet m k = some d) : e.2 = d := by
  induction m with
  | nil => cases he
  | cons x rest ih =>
    rw [List.map_cons, List.nodup_cons] at hN
    rcases List.mem_cons.mp he with rfl | hmem
    · rw [statesGet, if_pos hk] at hg
      exact Option.some.inj hg
    · have hx : x.1 ≠ k := by
        intro hxk
        exact hN.1 (hxk ▸ hk ▸ List.mem_map_of_mem Prod.fst hmem)
      rw [statesGet, if_neg hx] at hg
      exact ih hN.2 hmem hg

/-- Helper: an element of the map after `set` is the new entry or an old
one. -/
theorem mem_statesSet (m : StateMap) (ns : String) (v : OAuthStateData)
    (e : String × OAuthStateData) (he : e ∈ statesSet m ns v) :
    e = (ns, v) ∨ e ∈ m := by
  unfold statesSet at he
  by_cases hs : (statesGet m ns).isSome
  · rw [if_pos hs] at he
    rcases List.mem_map.mp he with ⟨e', he', heq⟩
    by_cases h1 : e'.1 = ns
    · left; rw [← heq, if_pos h1]
    · right; rw [← heq, if_neg h1]; exact he'
  · rw [if_neg hs] at he
    rcases List.mem_append.mp he with h | h
    · right; exact h
    · left; simpa using h

/-- C9: OAuth states are single-use — a callback that finds its state
deletes it before the token exchange, so a repeated callback with the same
state is redirected with `invalid_state` and never reaches the exchange;
and the opportunistic sweep run by a new login request removes every entry
strictly older than five minutes. -/
theorem c9_oauth_state_single_use
    (m : StateMap) (s : String) (sd : OAuthStateData) (code code2 : Option String)
    (m2 : StateMap) (k newState : String) (d : OAuthStateData) (now2 : Int)
    (red2 : Option String)
    (hs : s ≠ "")
    (h1 : statesGet m s = some sd)
    (hc : truthyS code = true)
    (hc2 : truthyS code2 = true)
    (hN : (m2.map Prod.fst).Nodup)
    (hold : statesGet m2 k = some d)
    (hexp : now2 - d.created > 300000)
    (hk : k ≠ newState) :
    githubCallback m code (some s) none = (.tokenExchange sd, statesDelete m s) ∧
    statesGet (statesDelete m s) s = none ∧
    githubCallback (statesDelete m s) code2 (some s) none =
      (.redirectError "invalid_state", statesDelete m s) ∧
    statesGet (githubLogin m2 true newState now2 red2) k = none := by
  have hts : truthyS (some s) = true := by simp [truthyS, hs]
  have hn : truthyS none = false := rfl
  refine ⟨?_, statesGet_delete_self m s, ?_, ?_⟩
  · simp [githubCallback, hn, hc, hts, h1]
  · simp [githubCallback, hn, hc2, hts, statesGet_delete_self m s]
  · rw [githubLogin, if_pos rfl, cleanupExpiredStates]
    apply statesGet_filter_none
    intro e he hek
    rcases mem_statesSet _ _ _ _ he with heq | hmem
    · exact absurd (by rw [heq] at hek; exact hek.symm) hk
    · have hval : e.2 = d := statesGet_some_of_mem m2 k e d hN hmem hek hold
      rw [hval]
      exact decide_eq_false (not_not_intro hexp)

/-- Witness for C9 at concrete maps and a 301-second-old entry. -/
theorem c9_oauth_state_single_use_witness :
    ("s1" : String) ≠ "" ∧
    statesGet [("s1", ⟨0, "/dashboard"⟩)] "s1" = some ⟨0, "/dashboard"⟩ ∧
    truthyS (some "c") = true ∧
    (([("old", (⟨0, "/x"⟩ : OAuthStateData))].map Prod.fst).Nodup) ∧
    statesGet [("old", ⟨0, "/x"⟩)] "old" = some ⟨0, "/x"⟩ ∧
    ((301000 : Int) - (0 : Int) > 300000) ∧
    ("old" : String) ≠ "fresh" ∧
    (githubCallback [("s1", ⟨0, "/dashboard"⟩)] (some "c") (some "s1") none =
      (.tokenExchange ⟨0, "/dashboard"⟩, statesDelete [("s1", ⟨0, "/dashboard"⟩)] "s1") ∧
    statesGet (statesDelete [("s1", ⟨0, "/dashboard"⟩)] "s1") "s1" = none ∧
    githubCallback (statesDelete [("s1", ⟨0, "/dashboard"⟩)] "s1") (some "c")
        (some "s1") none =
      (.redirectError "invalid_state", statesDelete [("s1", ⟨0, "/dashboard"⟩)] "s1") ∧
    statesGet (githubLogin [("old", ⟨0, "/x"⟩)] true "fresh" 301000 none) "old" = none) :=
  ⟨by decide, rfl, rfl, by decide, rfl, by decide, by decide,
    c9_oauth_state_single_use [("s1", ⟨0, "/dashboard"⟩)] "s1" ⟨0, "/dashboard"⟩
      (some "c") (some "c") [("old", ⟨0, "/x"⟩)] "old" "fresh" ⟨0, "/x"⟩ 301000 none
      (by decide) rfl rfl rfl (by decide) rfl (by decide) (by decide)⟩

/-- Helper: `bumpDay` keeps the day keys, or appends the new day. -/
theorem bumpDay_days (d : Int) (r : LogRow) (acc : List DayStat) :
    (bumpDay d r acc).map DayStat.day =
      if d ∈ acc.map DayStat.day then acc.map DayStat.day
      else acc.map DayStat.day ++ [d] := by
  induction acc with
  | nil => simp [bumpDay, addRow]
  | cons c rest ih =>
    by_cases hc : c.day = d
    · simp [bumpDay, hc, addRow]
    · have hcd : ¬ d = c.day := fun h => hc h.symm
      simp only [bumpDay, if_neg hc, List.map_cons, ih, List.mem_cons, hcd,
        false_or]
      by_cases hm : d ∈ rest.map DayStat.day
      · simp [hm]
      · simp [hm]

/-- Helper: `bumpDay` preserves distinctness of the day keys. -/
theorem bumpDay_nodup (d : Int) (r : LogRow) (acc : List DayStat)
    (h : (acc.map DayStat.day).Nodup) :
    ((bumpDay d r acc).map DayStat.day).Nodup := by
  rw [bumpDay_days]
  by_cases hm : d ∈ acc.map DayStat.day
  · rwa [if_pos hm]
  · rw [if_neg hm]
    rw [List.nodup_append]
    exact ⟨h, List.nodup_singleton d, by
      intro a ha hb
      rw [List.mem_singleton] at hb
      exact hm (hb ▸ ha)⟩

/-- Helper: the day keys of the grouped buckets are distinct. -/
theorem groupDaily_nodup (rows : List LogRow) :
    ((groupDaily rows).map DayStat.day).Nodup := by
  suffices h : ∀ acc : List DayStat, (acc.map DayStat.day).Nodup →
      (((rows.foldl (fun acc r => bumpDay (dayOf r) r acc) acc)).map DayStat.day).Nodup by
    exact h [] (by simp)
  induction rows with
  | nil => intro acc hacc; simpa using hacc
  | cons r rest ih =>
    intro acc hacc
    simpa using ih (bumpDay (dayOf r) r acc) (bumpDay_nodup _ _ _ hacc)

/-- Helper: adding a row adds exactly one to the bucket totals. -/
theorem bumpDay_sumTotals (d : Int) (r : LogRow) (acc : List DayStat) :
    ((bumpDay d r acc).map DayStat.total).sum =
      ((acc.map DayStat.total).sum) + 1 := by
  induction acc with
  | nil => simp [bumpDay, addRow]
  | cons c rest ih =>
    by_cases hc : c.day = d
    · simp [bumpDay, hc, addRow]
      omega
    · simp [bumpDay, hc, ih]
      omega

/-- Helper: folding the rows accumulates one total per row. -/
theorem groupDaily_sumTotals (rows : List LogRow) :
    ∀ acc : List DayStat,
      (((rows.foldl (fun acc r => bumpDay (dayOf r) r acc) acc)).map DayStat.total).sum =
        ((acc.map DayStat.total).sum) + rows.length := by
  induction rows with
  | nil => intro acc; simp
  | cons r rest ih =>
    intro acc
    simp only [List.foldl_cons, List.length_cons]
    rw [ih (bumpDay (dayOf r) r acc), bumpDay_sumTotals]
    omega

/-- Helper: membership in an insertion. -/
theorem mem_insertDay (c x : DayStat) (l : List DayStat) :
    x ∈ insertDay c l ↔ x = c ∨ x ∈ l := by
  induction l with
  | nil => simp [insertDay]
  | cons y rest ih =>
    by_cases h : c.day ≤ y.day
    · simp [insertDay, h]
    · simp only [insertDay, if_neg h, List.mem_cons, ih]
      tauto

/-- Helper: insertion keeps the list sorted by day. -/
theorem insertDay_pairwise (c : DayStat) (l : List DayStat)
    (h : List.Pairwise (fun a b => a.day ≤ b.day) l) :
    List.Pairwise (fun a b => a.day ≤ b.day) (insertDay c l) := by
  induction l with
  | nil => simp [insertDay]
  | cons y rest ih =>
    rw [List.pairwise_cons] at h
    by_cases hcy : c.day ≤ y.day
    · rw [insertDay, if_pos hcy, List.pairwise_cons]
      refine ⟨?_, List.pairwise_cons.mpr h⟩
      intro z hz
      rcases List.mem_cons.mp hz with rfl | hz'
      · exact hcy
      · exact le_trans hcy (h.1 z hz')
    · rw [insertDay, if_neg hcy, List.pairwise_cons]
      refine ⟨?_, ih h.2⟩
      intro z hz
      rcases (mem_insertDay c z rest).mp hz with rfl | hz'
      · exact le_of_not_le hcy
      · exact h.1 z hz'

/-- Helper: the sort is a permutation of its input. -/
theorem insertDay_perm (c : DayStat) (l : List DayStat) :
    List.Perm (insertDay c l) (c :: l) := by
  induction l with
  | nil => rfl
  | cons y rest ih =>
    by_cases h : c.day ≤ y.day
    · rw [insertDay, if_pos h]
    · rw [insertDay, if_neg h]
      exact (ih.cons y).trans (List.Perm.swap c y rest)

/-- Helper: `sortDays` permutes its input. -/
theorem sortDays_perm (l : List DayStat) : List.Perm (sortDays l) l := by
  induction l with
  | nil => rfl
  | cons c rest ih =>
    exact (insertDay_perm c (sortDays rest)).trans (ih.cons c)

/-- Helper: `sortDays` sorts by day. -/
theorem sortDays_pairwise (l : List DayStat) :
    List.Pairwise (fun a b => a.day ≤ b.day) (sortDays l) := by
  induction l with
  | nil => simp [sortDays]
  | cons c rest ih => exact insertDay_pairwise c (sortDays rest) ih

/-- C6: the aggregator's `daily_breakdown` is strictly ascending by date,
and its bucket totals sum to `total_verifications`, the number of input
rows (the aggregator is a pure function of the rows). -/
theorem c6_daily_breakdown_sorted_and_total (rows : List LogRow) :
    List.Pairwise (fun a b => a.day < b.day) (processAnalytics rows).dailyBreakdown ∧
    ((processAnalytics rows).dailyBreakdown.map DayStat.total).sum = rows.length ∧
    (processAnalytics rows).totalVerifications = rows.length := by
  have hdb : (processAnalytics rows).dailyBreakdown = sortDays (groupDaily rows) := rfl
  have hperm : List.Perm (sortDays (groupDaily rows)) (groupDaily rows) := sortDays_perm _
  refine ⟨?_, ?_, rfl⟩
  · have hle := sortDays_pairwise (groupDaily rows)
    have hnd : ((sortDays (groupDaily rows)).map DayStat.day).Nodup :=
      ((hperm.map DayStat.day).nodup_iff).mpr (groupDaily_nodup rows)
    have hne : List.Pairwise (fun a b => a.day ≠ b.day) (sortDays (groupDaily rows)) :=
      List.pairwise_map.mp hnd
    rw [hdb]
    exact (hle.and hne).imp (fun h => lt_of_le_of_ne h.1 h.2)
  · rw [hdb, (hperm.map DayStat.total).sum_eq]
    simpa [groupDaily] using groupDaily_sumTotals rows []

/-! ## Round trip of the challenge token -/

/-- Helper: decoding one base64url character inverts encoding. -/
theorem b64Val_b64Char : ∀ v < 64, b64Val (b64Char v) = some v := by decide

/-- Helper: base64url decoding inverts encoding on byte lists. -/
theorem b64_roundtrip : ∀ bs : List Nat, (∀ b ∈ bs, b < 256) →
    b64Decode (b64Encode bs) = some bs
  | [], _ => rfl
  | [b1], h => by
    have hb1 : b1 < 256 := h b1 (by simp)
    rw [b64Encode, b64Decode,
      b64Val_b64Char (b1 / 4) (by omega),
      b64Val_b64Char (b1 % 4 * 16) (by omega)]
    show some [b1 / 4 * 4 + b1 % 4 * 16 / 16] = some [b1]
    rw [show b1 / 4 * 4 + b1 % 4 * 16 / 16 = b1 from by omega]
  | [b1, b2], h => by
    have hb1 : b1 < 256 := h b1 (by simp)
    have hb2 : b2 < 256 := h b2 (by simp)
    rw [b64Encode, b64Decode,
      b64Val_b64Char (b1 / 4) (by omega),
      b64Val_b64Char (b1 % 4 * 16 + b2 / 16) (by omega),
      b64Val_b64Char (b2 % 16 * 4) (by omega)]
    show some [b1 / 4 * 4 + (b1 % 4 * 16 + b2 / 16) / 16,
               (b1 % 4 * 16 + b2 / 16) % 16 * 16 + b2 % 16 * 4 / 4] = some [b1, b2]
    rw [show b1 / 4 * 4 + (b1 % 4 * 16 + b2 / 16) / 16 = b1 from by omega,
        show (b1 % 4 * 16 + b2 / 16) % 16 * 16 + b2 % 16 * 4 / 4 = b2 from by omega]
  | b1 :: b2 :: b3 :: b4 :: rest, h => by
    have hb1 : b1 < 256 := h b1 (by simp)
    have hb2 : b2 < 256 := h b2 (by simp)
    have hb3 : b3 < 256 := h b3 (by simp)
    have ih := b64_roundtrip (b4 :: rest) (fun b hb => h b (by simp at hb ⊢; tauto))
    rw [b64Encode, b64Decode,
      b64Val_b64Char (b1 / 4) (by omega),
      b64Val_b64Char (b1 % 4 * 16 + b2 / 16) (by omega),
      b64Val_b64Char (b2 % 16 * 4 + b3 / 64) (by omega),
      b64Val_b64Char (b3 % 64) (by omega), ih]
    show some ((b1 / 4 * 4 + (b1 % 4 * 16 + b2 / 16) / 16) ::
               ((b1 % 4 * 16 + b2 / 16) % 16 * 16 + (b2 % 16 * 4 + b3 / 64) / 4) ::
               ((b2 % 16 * 4 + b3 / 64) % 4 * 64 + b3 % 64) :: (b4 :: rest)) =
      some (b1 :: b2 :: b3 :: b4 :: rest)
    rw [show b1 / 4 * 4 + (b1 % 4 * 16 + b2 / 16) / 16 = b1 from by omega,
        show (b1 % 4 * 16 + b2 / 16) % 16 * 16 + (b2 % 16 * 4 + b3 / 64) / 4 = b2 from
          by omega,
        show (b2 % 16 * 4 + b3 / 64) % 4 * 64 + b3 % 64 = b3 from by omega]
  | [b1, b2, b3], h => by
    have hb1 : b1 < 256 := h b1 (by simp)
    have hb2 : b2 < 256 := h b2 (by simp)
    have hb3 : b3 < 256 := h b3 (by simp)
    rw [b64Encode, b64Decode,
      b64Val_b64Char (b1 / 4) (by omega),
      b64Val_b64Char (b1 % 4 * 16 + b2 / 16) (by omega),
      b64Val_b64Char (b2 % 16 * 4 + b3 / 64) (by omega),
      b64Val_b64Char (b3 % 64) (by omega)]
    show some [b1 / 4 * 4 + (b1 % 4 * 16 + b2 / 16) / 16,
               (b1 % 4 * 16 + b2 / 16) % 16 * 16 + (b2 % 16 * 4 + b3 / 64) / 4,
               (b2 % 16 * 4 + b3 / 64) % 4 * 64 + b3 % 64] = some [b1, b2, b3]
    rw [show b1 / 4 * 4 + (b1 % 4 * 16 + b2 / 16) / 16 = b1 from by omega,
        show (b1 % 4 * 16 + b2 / 16) % 16 * 16 + (b2 % 16 * 4 + b3 / 64) / 4 = b2 from
          by omega,
        show (b2 % 16 * 4 + b3 / 64) % 4 * 64 + b3 % 64 = b3 from by omega]

/-- Helper: hex parsing inverts the serializer's hex digits. -/
theorem parseHex_hexDigit : ∀ n < 16, parseHex (hexDigit n) = some n := by decide

/-- Helper: string-body parsing inverts `JSON.stringify` escaping. -/
theorem parseStringBody_escape : ∀ (s : List Nat), (∀ b ∈ s, b < 256) →
    ∀ rest : List Nat, parseStringBody (escapeBytes s ++ (34 :: rest)) = some (s, rest)
  | [], _, rest => by
    rw [show escapeBytes [] ++ (34 :: rest) = 34 :: rest from rfl,
      parseStringBody.eq_def]
    norm_num
  | b :: s', h, rest => by
    have hb : b < 256 := h b (by simp)
    have ih := parseStringBody_escape s' (fun x hx => h x (by simp [hx])) rest
    have hesc : escapeBytes (b :: s') = escapeByte b ++ escapeBytes s' := by
      simp [escapeBytes]
    rw [hesc, List.append_assoc]
    have hstep : ∀ e : Nat, unescapeChar e = some b →
        parseStringBody (92 :: e :: (escapeBytes s' ++ 34 :: rest)) =
          some (b :: s', rest) := by
      intro e he
      have h117 : e ≠ 117 := by
        intro hh
        subst hh
        simp [unescapeChar] at he
      rw [parseStringBody.eq_def]
      norm_num [h117, he, ih]
    by_cases h34 : b = 34
    · subst h34
      exact hstep 34 rfl
    · by_cases h92 : b = 92
      · subst h92
        exact hstep 92 rfl
      · by_cases h8 : b = 8
        · subst h8
          exact hstep 98 rfl
        · by_cases h9 : b = 9
          · subst h9
            exact hstep 116 rfl
          · by_cases h10 : b = 10
            · subst h10
              exact hstep 110 rfl
            · by_cases h12 : b = 12
              · subst h12
                exact hstep 102 rfl
              · by_cases h13 : b = 13
                · subst h13
                  exact hstep 114 rfl
                · by_cases h32 : b < 32
                  · rw [escapeByte, if_neg h34, if_neg h92, if_neg h8, if_neg h9,
                      if_neg h10, if_neg h12, if_neg h13, if_pos h32]
                    have e1 : parseHex (hexDigit (b / 16)) = some (b / 16) :=
                      parseHex_hexDigit _ (by omega)
                    have e2 : parseHex (hexDigit (b % 16)) = some (b % 16) :=
                      parseHex_hexDigit _ (by omega)
                    have e3 : utf8Bytes (b / 16 * 16 + b % 16) = [b] := by
                      rw [show b / 16 * 16 + b % 16 = b from by omega,
                        utf8Bytes, if_pos (show b < 128 from by omega)]
                    simp only [List.cons_append, List.nil_append]
                    rw [parseStringBody.eq_def]
                    norm_num [show parseHex 48 = some 0 from rfl, e1, e2, ih, e3]
                  · rw [escapeByte, if_neg h34, if_neg h92, if_neg h8, if_neg h9,
                      if_neg h10, if_neg h12, if_neg h13, if_neg h32]
                    simp only [List.cons_append, List.nil_append]
                    rw [parseStringBody.eq_def]
                    norm_num [h34, h92, h32, ih]

/-- Helper: the fuel-indexed digits agree with `Nat.digits`. -/
theorem natDigitsAux_eq (fuel : Nat) : ∀ n : Nat, n ≤ fuel →
    natDigitsAux fuel n = Nat.digits 10 n := by
  induction fuel with
  | zero =>
    intro n hn
    rw [show n = 0 from by omega]
    simp [natDigitsAux]
  | succ f ih =>
    intro n hn
    cases n with
    | zero => simp [natDigitsAux]
    | succ m =>
      rw [natDigitsAux, ih ((m + 1) / 10) (by omega),
        Nat.digits_def' (by norm_num : 1 < 10) (Nat.succ_pos m)]
      omega

/-- Helper: folding decimal digits most-significant-first recovers the
value. -/
theorem foldl_digits_rev (L : List Nat) : ∀ a : Nat,
    (L.reverse).foldl (fun x d => x * 10 + d) a = a * 10 ^ L.length + Nat.ofDigits 10 L := by
  induction L with
  | nil => intro a; simp
  | cons d T ih =>
    intro a
    rw [List.reverse_cons, List.foldl_append, ih a, Nat.ofDigits_cons,
      List.length_cons, pow_succ]
    show (a * 10 ^ T.length + Nat.ofDigits 10 T) * 10 + d = _
    ring

/-- Helper: the digit bytes of `n` evaluate back to `n`. -/
theorem digitsVal_natDigitsBytes (n : Nat) : digitsVal (natDigitsBytes n) = n := by
  by_cases h0 : n = 0
  · subst h0; rfl
  · rw [natDigitsBytes, if_neg h0, natDigitsAux_eq n n le_rfl, digitsVal,
      List.foldl_map]
    have hfun : (fun (a : Nat) d => a * 10 + (48 + d - 48)) =
        (fun a d => a * 10 + d) := by
      funext a d
      omega
    rw [hfun, foldl_digits_rev, Nat.ofDigits_digits]
    simp

/-- Helper: every serialized digit byte is a digit. -/
theorem natDigitsBytes_digits (n : Nat) :
    ∀ b ∈ natDigitsBytes n, isDigitByte b = true := by
  by_cases h0 : n = 0
  · subst h0
    decide
  · rw [natDigitsBytes, if_neg h0, natDigitsAux_eq n n le_rfl]
    intro b hb
    rw [List.mem_map] at hb
    obtain ⟨d, hd, rfl⟩ := hb
    rw [List.mem_reverse] at hd
    have hlt : d < 10 := Nat.digits_lt_base (by norm_num) hd
    simp only [isDigitByte, Bool.and_eq_true, decide_eq_true_eq]
    omega

/-- Helper: a digit byte list is never empty. -/
theorem natDigitsBytes_ne_nil (n : Nat) : natDigitsBytes n ≠ [] := by
  by_cases h0 : n = 0
  · subst h0
    decide
  · rw [natDigitsBytes, if_neg h0, natDigitsAux_eq n n le_rfl]
    simp [Nat.digits_ne_nil_iff_ne_zero, h0]

/-- Helper: `takeWhile` stops exactly at the appended remainder. -/
theorem takeWhile_append_stop (p : Nat → Bool) (rest : List Nat)
    (h2 : rest = [] ∨ ∃ r t, rest = r :: t ∧ p r = false) :
    ∀ xs : List Nat, (∀ x ∈ xs, p x = true) →
      (xs ++ rest).takeWhile p = xs := by
  intro xs
  induction xs with
  | nil =>
    intro _
    rcases h2 with rfl | ⟨r, t, rfl, hr⟩
    · rfl
    · simp [List.takeWhile_cons, hr]
  | cons x xs' ih =>
    intro h1
    have hx := h1 x (by simp)
    simp [List.takeWhile_cons, hx, ih (fun y hy => h1 y (by simp [hy]))]

/-- Helper: a stopped remainder contributes no fraction part. -/
theorem parseFrac_stop (rest : List Nat) (h : numStop rest) :
    parseFrac rest = some (0, rest) := by
  rcases h with rfl | ⟨r, t, rfl, _, h46, _, _⟩
  · rfl
  · rw [parseFrac]
    norm_num [h46]

/-- Helper: a stopped remainder contributes no exponent part. -/
theorem parseExp_stop (rest : List Nat) (h : numStop rest) :
    parseExp rest = some (1, rest) := by
  rcases h with rfl | ⟨r, t, rfl, _, _, h101, h69⟩
  · rfl
  · rw [parseExp.eq_def]
    norm_num [h101, h69]

/-- Helper: the number body parses serialized digits back to their value. -/
theorem parseNumberBody_digits (neg : Bool) (m : Nat) (rest : List Nat)
    (hstop : numStop rest) :
    parseNumberBody neg (natDigitsBytes m ++ rest) =
      some ((if neg then -1 else 1) * ((m : ℚ) + 0) * 1, rest) := by
  have htk : (natDigitsBytes m ++ rest).takeWhile isDigitByte = natDigitsBytes m := by
    apply takeWhile_append_stop isDigitByte rest
    · rcases hstop with rfl | ⟨r, t, hrt, hd, _, _, _⟩
      · left; rfl
      · right; exact ⟨r, t, hrt, hd⟩
    · exact natDigitsBytes_digits m
  rw [parseNumberBody]
  simp only [htk]
  rw [if_neg (natDigitsBytes_ne_nil m)]
  rw [show (natDigitsBytes m ++ rest).drop (natDigitsBytes m).length = rest from
    List.drop_left _ _]
  simp only [parseFrac_stop rest hstop, parseExp_stop rest hstop,
    digitsVal_natDigitsBytes]

/-- Helper: a serialized integer parses back to its value. -/
theorem parseNumber_intDigits (n : Int) (rest : List Nat) (hstop : numStop rest) :
    parseNumber (intDigitsBytes n ++ rest) = some ((n : ℚ), rest) := by
  by_cases hneg : n < 0
  · rw [intDigitsBytes, if_pos hneg, List.cons_append, parseNumber,
      if_pos rfl, parseNumberBody_digits true n.natAbs rest hstop]
    have hcast : (-1 : ℚ) * ((n.natAbs : ℚ) + 0) * 1 = (n : ℚ) := by
      rw [Int.cast_natAbs, abs_of_neg hneg]
      push_cast
      ring
    show some ((-1 : ℚ) * ((n.natAbs : ℚ) + 0) * 1, rest) = some ((n : ℚ), rest)
    rw [hcast]
  · rw [intDigitsBytes, if_neg hneg]
    obtain ⟨b0, t, hds⟩ : ∃ b0 t, natDigitsBytes n.toNat = b0 :: t := by
      cases hd : natDigitsBytes n.toNat with
      | nil => exact absurd hd (natDigitsBytes_ne_nil _)
      | cons a l => exact ⟨a, l, rfl⟩
    have hb0 : isDigitByte b0 = true := natDigitsBytes_digits n.toNat b0 (by
      rw [hds]; simp)
    have hb045 : b0 ≠ 45 := by
      simp only [isDigitByte, Bool.and_eq_true, decide_eq_true_eq] at hb0
      omega
    rw [hds, List.cons_append, parseNumber, if_neg hb045, ← List.cons_append, ← hds,
      parseNumberBody_digits false n.toNat rest hstop]
    have hcast : (1 : ℚ) * ((n.toNat : ℚ) + 0) * 1 = (n : ℚ) := by
      rw [show ((n.toNat : ℚ)) = ((n.toNat : ℤ) : ℚ) from by push_cast; ring,
        Int.toNat_of_nonneg (not_lt.mp hneg)]
      ring
    show some ((1 : ℚ) * ((n.toNat : ℚ) + 0) * 1, rest) = some ((n : ℚ), rest)
    rw [hcast]

/-- Helper: `skipWs` keeps a non-whitespace head. -/
theorem skipWs_cons_not (b : Nat) (l : List Nat) (h : isWsByte b = false) :
    skipWs (b :: l) = b :: l := by
  rw [skipWs.eq_def]
  simp [h]

/-- Helper: parse a serialized JSON string value. -/
theorem parseVal_string (f : Nat) (s rest : List Nat) (hs : ∀ b ∈ s, b < 256) :
    parseVal (f + 1) (34 :: (escapeBytes s ++ (34 :: rest))) =
      some (.str s, rest) := by
  rw [parseVal, skipWs_cons_not 34 _ rfl]
  norm_num [parseStringBody_escape s hs rest]

/-- Helper: a head that opens no other construct routes to the number
parser. -/
theorem parseVal_cons_number (f : Nat) (b0 : Nat) (X : List Nat)
    (hw : isWsByte b0 = false) (h34 : b0 ≠ 34) (h123 : b0 ≠ 123) (h91 : b0 ≠ 91)
    (h110 : b0 ≠ 110) (h116 : b0 ≠ 116) (h102 : b0 ≠ 102) :
    parseVal (f + 1) (b0 :: X) =
      match parseNumber (b0 :: X) with
      | some (q, r) => some (.num q, r)
      | none => none := by
  rw [parseVal, skipWs_cons_not b0 _ hw]
  norm_num [h34, h123, h91, h110, h116, h102]

/-- Helper: parse a serialized JSON integer value. -/
theorem parseVal_number (f : Nat) (n : Int) (rest : List Nat) (hstop : numStop rest) :
    parseVal (f + 1) (intDigitsBytes n ++ rest) = some (.num (n : ℚ), rest) := by
  obtain ⟨b0, t, hds, hb⟩ : ∃ b0 t, intDigitsBytes n = b0 :: t ∧
      (b0 = 45 ∨ (48 ≤ b0 ∧ b0 ≤ 57)) := by
    by_cases hneg : n < 0
    · exact ⟨45, natDigitsBytes n.natAbs,
        by rw [intDigitsBytes, if_pos hneg], Or.inl rfl⟩
    · obtain ⟨b0, t, hds⟩ : ∃ b0 t, natDigitsBytes n.toNat = b0 :: t := by
        cases hd : natDigitsBytes n.toNat with
        | nil => exact absurd hd (natDigitsBytes_ne_nil _)
        | cons a l => exact ⟨a, l, rfl⟩
      have hb0 := natDigitsBytes_digits n.toNat b0 (by rw [hds]; simp)
      simp only [isDigitByte, Bool.and_eq_true, decide_eq_true_eq] at hb0
      exact ⟨b0, t, by rw [intDigitsBytes, if_neg hneg, hds], Or.inr hb0⟩
  have hw : isWsByte b0 = false := by
    simp only [isWsByte, Bool.or_eq_false_iff, decide_eq_false_iff_not]
    rcases hb with rfl | h <;> omega
  rw [hds, List.cons_append,
    parseVal_cons_number f b0 (t ++ rest) hw
      (by rcases hb with rfl | h <;> omega) (by rcases hb with rfl | h <;> omega)
      (by rcases hb with rfl | h <;> omega) (by rcases hb with rfl | h <;> omega)
      (by rcases hb with rfl | h <;> omega) (by rcases hb with rfl | h <;> omega),
    ← List.cons_append, ← hds, parseNumber_intDigits n rest hstop]

/-- Helper: bytes needing no escape serialize verbatim. -/
theorem escapeBytes_plain (ks : List Nat)
    (h : ∀ b ∈ ks, 32 ≤ b ∧ b ≠ 34 ∧ b ≠ 92) : escapeBytes ks = ks := by
  induction ks with
  | nil => rfl
  | cons b t ih =>
    obtain ⟨h32, h34, h92⟩ := h b (by simp)
    have hesc : escapeByte b = [b] := by
      rw [escapeByte, if_neg h34, if_neg h92, if_neg (by omega), if_neg (by omega),
        if_neg (by omega), if_neg (by omega), if_neg (by omega),
        if_neg (by omega : ¬ b < 32)]
    rw [show escapeBytes (b :: t) = escapeByte b ++ escapeBytes t from by
        simp [escapeBytes],
      hesc, ih (fun x hx => h x (by simp [hx]))]
    rfl

/-- Helper: an unescaped key parses back verbatim. -/
theorem parseStringBody_plain (ks : List Nat)
    (hp : ∀ b ∈ ks, 32 ≤ b ∧ b ≠ 34 ∧ b ≠ 92) (hb : ∀ b ∈ ks, b < 256)
    (R : List Nat) :
    parseStringBody (ks ++ (34 :: R)) = some (ks, R) := by
  have h := parseStringBody_escape ks hb R
  rwa [escapeBytes_plain ks hp] at h

/-- Helper: parse the last member of an object. -/
theorem parseMembers_last (f : Nat) (key V r4 : List Nat) (v : Json)
    (hp : ∀ b ∈ key, 32 ≤ b ∧ b ≠ 34 ∧ b ≠ 92) (hb : ∀ b ∈ key, b < 256)
    (hval : parseVal f V = some (v, 125 :: r4)) :
    parseMembers (f + 1) (34 :: (key ++ (34 :: 58 :: V))) = some ([(key, v)], r4) := by
  rw [parseMembers, skipWs_cons_not 34 _ rfl]
  norm_num [parseStringBody_plain key hp hb (58 :: V),
    skipWs_cons_not 58 V rfl, hval, skipWs_cons_not 125 r4 rfl]

/-- Helper: parse a non-final member of an object. -/
theorem parseMembers_more (f : Nat) (key V r4 r5 : List Nat) (v : Json)
    (ms : List (List Nat × Json))
    (hp : ∀ b ∈ key, 32 ≤ b ∧ b ≠ 34 ∧ b ≠ 92) (hb : ∀ b ∈ key, b < 256)
    (hval : parseVal f V = some (v, 44 :: r4))
    (hrest : parseMembers f r4 = some (ms, r5)) :
    parseMembers (f + 1) (34 :: (key ++ (34 :: 58 :: V))) =
      some ((key, v) :: ms, r5) := by
  rw [parseMembers, skipWs_cons_not 34 _ rfl]
  norm_num [parseStringBody_plain key hp hb (58 :: V),
    skipWs_cons_not 58 V rfl, hval, skipWs_cons_not 44 r4 rfl, hrest]

/-- Helper: hex digits stay below 256. -/
theorem hexDigit_lt (n : Nat) (h : n < 16) : hexDigit n < 256 := by
  rw [hexDigit]
  split <;> omega

/-- Helper: escaping preserves the byte bound. -/
theorem escapeByte_bound (x : Nat) (hx : x < 256) : ∀ b ∈ escapeByte x, b < 256 := by
  intro b hb
  rw [escapeByte] at hb
  split_ifs at hb with h1 h2 h3 h4 h5 h6 h7 h8
  · simp at hb; omega
  · simp at hb; omega
  · simp at hb; omega
  · simp at hb; omega
  · simp at hb; omega
  · simp at hb; omega
  · simp at hb; omega
  · simp only [List.mem_cons, List.not_mem_nil, or_false] at hb
    have e1 := hexDigit_lt (x / 16) (by omega)
    have e2 := hexDigit_lt (x % 16) (by omega)
    rcases hb with rfl | rfl | rfl | rfl | rfl | rfl <;> omega
  · simp at hb; omega

/-- Helper: escaped strings stay below 256. -/
theorem escapeBytes_bound (s : List Nat) (h : ∀ b ∈ s, b < 256) :
    ∀ b ∈ escapeBytes s, b < 256 := by
  intro b hb
  rw [escapeBytes, List.mem_flatMap] at hb
  obtain ⟨x, hx, hbx⟩ := hb
  exact escapeByte_bound x (h x hx) b hbx

/-- Helper: digit bytes stay below 256. -/
theorem natDigitsBytes_bound (n : Nat) : ∀ b ∈ natDigitsBytes n, b < 256 := by
  intro b hb
  have h := natDigitsBytes_digits n b hb
  simp only [isDigitByte, Bool.and_eq_true, decide_eq_true_eq] at h
  omega

/-- Helper: integer bytes stay below 256. -/
theorem intDigitsBytes_bound (n : Int) : ∀ b ∈ intDigitsBytes n, b < 256 := by
  intro b hb
  rw [intDigitsBytes] at hb
  split_ifs at hb
  · rcases List.mem_cons.mp hb with rfl | hb'
    · omega
    · exact natDigitsBytes_bound _ b hb'
  · exact natDigitsBytes_bound _ b hb

/-- Helper: the serialized challenge stays below 256 bytewise. -/
theorem stringifyChallenge_bound (c : Challenge)
    (hid : ∀ b ∈ c.id, b < 256) (hdf : ∀ b ∈ c.difficulty, b < 256)
    (hty : ∀ b ∈ c.type, b < 256) :
    ∀ b ∈ stringifyChallenge c, b < 256 := by
  intro b hb
  rw [stringifyChallenge] at hb
  simp only [List.mem_append] at hb
  rcases hb with ((((((((h | h) | h) | h) | h) | h) | h) | h) | h)
  · exact (by decide : ∀ x ∈ ascii "\x7b\"id\":\"", x < 256) b h
  · exact escapeBytes_bound _ hid b h
  · exact (by decide : ∀ x ∈ ascii "\",\"timestamp\":", x < 256) b h
  · exact intDigitsBytes_bound _ b h
  · exact (by decide : ∀ x ∈ ascii ",\"difficulty\":\"", x < 256) b h
  · exact escapeBytes_bound _ hdf b h
  · exact (by decide : ∀ x ∈ ascii "\",\"type\":\"", x < 256) b h
  · exact escapeBytes_bound _ hty b h
  · exact (by decide : ∀ x ∈ ascii "\"\x7d", x < 256) b h

/-- Helper: the serialized challenge parses to its JSON value. -/
theorem parseVal_stringifyChallenge (c : Challenge)
    (hid : ∀ b ∈ c.id, b < 256) (hdf : ∀ b ∈ c.difficulty, b < 256)
    (hty : ∀ b ∈ c.type, b < 256) (f : Nat) :
    parseVal (f + 6) (stringifyChallenge c) = some (challengeJson c, []) := by
  set Vty := (34 :: (escapeBytes c.type ++ (34 :: (125 :: [])))) with hVty
  set Sty := (34 :: (ascii "type" ++ (34 :: 58 :: Vty))) with hSty
  set Vdf := (34 :: (escapeBytes c.difficulty ++ (34 :: (44 :: Sty)))) with hVdf
  set Sdf := (34 :: (ascii "difficulty" ++ (34 :: 58 :: Vdf))) with hSdf
  set Vts := (intDigitsBytes c.timestamp ++ (44 :: Sdf)) with hVts
  set Sts := (34 :: (ascii "timestamp" ++ (34 :: 58 :: Vts))) with hSts
  set Vid := (34 :: (escapeBytes c.id ++ (34 :: (44 :: Sts)))) with hVid
  set Sid := (34 :: (ascii "id" ++ (34 :: 58 :: Vid))) with hSid
  have hvalTy : parseVal (f + 1) Vty = some (.str c.type, 125 :: []) :=
    parseVal_string f c.type (125 :: []) hty
  have hMty : parseMembers (f + 2) Sty =
      some ([(ascii "type", Json.str c.type)], []) := by
    rw [show f + 2 = (f + 1) + 1 from by omega, hSty]
    exact parseMembers_last (f + 1) (ascii "type") Vty [] (Json.str c.type)
      (by decide) (by decide) hvalTy
  have hvalDf : parseVal (f + 2) Vdf = some (.str c.difficulty, 44 :: Sty) := by
    rw [show f + 2 = (f + 1) + 1 from by omega, hVdf]
    exact parseVal_string (f + 1) c.difficulty (44 :: Sty) hdf
  have hMdf : parseMembers (f + 3) Sdf =
      some ([(ascii "difficulty", Json.str c.difficulty),
             (ascii "type", Json.str c.type)], []) := by
    rw [show f + 3 = (f + 2) + 1 from by omega, hSdf]
    exact parseMembers_more (f + 2) (ascii "difficulty") Vdf Sty []
      (Json.str c.difficulty) _ (by decide) (by decide) hvalDf hMty
  have hvalTs : parseVal (f + 3) Vts = some (.num (c.timestamp : ℚ), 44 :: Sdf) := by
    rw [show f + 3 = (f + 2) + 1 from by omega, hVts]
    exact parseVal_number (f + 2) c.timestamp (44 :: Sdf)
      (Or.inr ⟨44, Sdf, rfl, by decide, by decide, by decide, by decide⟩)
  have hMts : parseMembers (f + 4) Sts =
      some ([(ascii "timestamp", Json.num (c.timestamp : ℚ)),
             (ascii "difficulty", Json.str c.difficulty),
             (ascii "type", Json.str c.type)], []) := by
    rw [show f + 4 = (f + 3) + 1 from by omega, hSts]
    exact parseMembers_more (f + 3) (ascii "timestamp") Vts Sdf []
      (Json.num (c.timestamp : ℚ)) _ (by decide) (by decide) hvalTs hMdf
  have hvalId : parseVal (f + 4) Vid = some (.str c.id, 44 :: Sts) := by
    rw [show f + 4 = (f + 3) + 1 from by omega, hVid]
    exact parseVal_string (f + 3) c.id (44 :: Sts) hid
  have hM : parseMembers (f + 5) Sid =
      some ([(ascii "id", Json.str c.id),
             (ascii "timestamp", Json.num (c.timestamp : ℚ)),
             (ascii "difficulty", Json.str c.difficulty),
             (ascii "type", Json.str c.type)], []) := by
    rw [show f + 5 = (f + 4) + 1 from by omega, hSid]
    exact parseMembers_more (f + 4) (ascii "id") Vid Sts []
      (Json.str c.id) _ (by decide) (by decide) hvalId hMts
  have hnorm : stringifyChallenge c = 123 :: Sid := by
    rw [hSid, hVid, hSts, hVts, hSdf, hVdf, hSty, hVty, stringifyChallenge]
    simp only [show ascii "\x7b\"id\":\"" = [123, 34, 105, 100, 34, 58, 34] from rfl,
      show ascii "\",\"timestamp\":" =
        [34, 44, 34, 116, 105, 109, 101, 115, 116, 97, 109, 112, 34, 58] from rfl,
      show ascii ",\"difficulty\":\"" =
        [44, 34, 100, 105, 102, 102, 105, 99, 117, 108, 116, 121, 34, 58, 34] from rfl,
      show ascii "\",\"type\":\"" = [34, 44, 34, 116, 121, 112, 101, 34, 58, 34] from
        rfl,
      show ascii "\"\x7d" = [34, 125] from rfl,
      show ascii "id" = [105, 100] from rfl,
      show ascii "timestamp" = [116, 105, 109, 101, 115, 116, 97, 109, 112] from rfl,
      show ascii "difficulty" =
        [100, 105, 102, 102, 105, 99, 117, 108, 116, 121] from rfl,
      show ascii "type" = [116, 121, 112, 101] from rfl,
      List.cons_append, List.append_assoc, List.nil_append]
  rw [show f + 6 = (f + 5) + 1 from by omega, hnorm, parseVal,
    skipWs_cons_not 123 _ rfl]
  rw [hSid]
  norm_num [skipWs_cons_not 34 _ rfl, hM, challengeJson]

/-- Helper: the serialized challenge parses as a full JSON document. -/
theorem parseJsonBytes_stringify (c : Challenge)
    (hid : ∀ b ∈ c.id, b < 256) (hdf : ∀ b ∈ c.difficulty, b < 256)
    (hty : ∀ b ∈ c.type, b < 256) :
    parseJsonBytes (stringifyChallenge c) = some (challengeJson c) := by
  have h7 : 7 ≤ (stringifyChallenge c).length := by
    rw [stringifyChallenge]
    simp only [List.length_append]
    have he : (ascii "\x7b\"id\":\"").length = 7 := rfl
    omega
  rw [parseJsonBytes, show (stringifyChallenge c).length + 1 =
      (stringifyChallenge c).length - 5 + 6 from by omega,
    parseVal_stringifyChallenge c hid hdf hty]
  rfl

/-- Helper: decoding a freshly encoded challenge token yields the
challenge's JSON value. -/
theorem decodeToken_encode (c : Challenge)
    (hid : ∀ b ∈ c.id, b < 256) (hdf : ∀ b ∈ c.difficulty, b < 256)
    (hty : ∀ b ∈ c.type, b < 256) :
    decodeToken (encodeChallengeToken c) = some (challengeJson c) := by
  rw [decodeToken, encodeChallengeToken,
    b64_roundtrip _ (stringifyChallenge_bound c hid hdf hty)]
  exact parseJsonBytes_stringify c hid hdf hty

/-- C3: decoding (base64url, then JSON parse) the token minted by the
challenge endpoint recovers exactly the issued challenge object — in
particular the `difficulty` and `type` it was issued with (after the
endpoint's defaulting) together with the issuance timestamp. -/
theorem c3_token_roundtrip (uuid : List Nat) (now : Int)
    (bodyDifficulty bodyType : Option (List Nat))
    (hu : ∀ b ∈ uuid, b < 256)
    (hd : ∀ b ∈ jsOrBytes bodyDifficulty (ascii "medium"), b < 256)
    (ht : ∀ b ∈ jsOrBytes bodyType (ascii "checkbox"), b < 256) :
    decodeToken (encodeChallengeToken
        (issuedChallenge uuid now bodyDifficulty bodyType)) =
      some (challengeJson (issuedChallenge uuid now bodyDifficulty bodyType)) ∧
    jsonStrField (challengeJson (issuedChallenge uuid now bodyDifficulty bodyType))
        (ascii "difficulty") =
      some (issuedChallenge uuid now bodyDifficulty bodyType).difficulty ∧
    jsonStrField (challengeJson (issuedChallenge uuid now bodyDifficulty bodyType))
        (ascii "type") =
      some (issuedChallenge uuid now bodyDifficulty bodyType).type ∧
    jsonNumField (challengeJson (issuedChallenge uuid now bodyDifficulty bodyType))
        (ascii "timestamp") =
      some ((issuedChallenge uuid now bodyDifficulty bodyType).timestamp : ℚ) :=
  ⟨decodeToken_encode _ hu hd ht, rfl, rfl, rfl⟩

/-- Witness for C3 at a concrete issuance. -/
theorem c3_token_roundtrip_witness :
    (∀ b ∈ ascii "w2-uuid", b < 256) ∧
    (∀ b ∈ jsOrBytes none (ascii "medium"), b < 256) ∧
    (∀ b ∈ jsOrBytes (some (ascii "puzzle")) (ascii "checkbox"), b < 256) ∧
    (decodeToken (encodeChallengeToken
        (issuedChallenge (ascii "w2-uuid") 42 none (some (ascii "puzzle")))) =
      some (challengeJson
        (issuedChallenge (ascii "w2-uuid") 42 none (some (ascii "puzzle")))) ∧
    jsonStrField (challengeJson
        (issuedChallenge (ascii "w2-uuid") 42 none (some (ascii "puzzle"))))
        (ascii "difficulty") =
      some (issuedChallenge (ascii "w2-uuid") 42 none (some (ascii "puzzle"))).difficulty ∧
    jsonStrField (challengeJson
        (issuedChallenge (ascii "w2-uuid") 42 none (some (ascii "puzzle"))))
        (ascii "type") =
      some (issuedChallenge (ascii "w2-uuid") 42 none (some (ascii "puzzle"))).type ∧
    jsonNumField (challengeJson
        (issuedChallenge (ascii "w2-uuid") 42 none (some (ascii "puzzle"))))
        (ascii "timestamp") =
      some ((issuedChallenge (ascii "w2-uuid") 42 none
        (some (ascii "puzzle"))).timestamp : ℚ)) :=
  ⟨by decide, by decide, by decide,
    c3_token_roundtrip (ascii "w2-uuid") 42 none (some (ascii "puzzle"))
      (by decide) (by decide) (by decide)⟩

/-- C2: the verify route rejects a non-decodable token with the structured
400 `Invalid token` body, and a decodable challenge whose numeric timestamp
lies more than 300 000 ms in the past with the structured 400
`Token expired` body — in both cases before any scoring: the error
constructor carries no `VerifyResult`, for every possible scorer input and
random draw, and the rejection is terminal (no retry path exists). -/
theorem c2_verify_rejections (tokBad tokGood : List Nat) (now : Int)
    (ch : Json) (ts : ℚ) (ua af osf : String) (geo : Option String)
    (rGeo rConf rSucc : ℚ)
    (hbad : decodeToken tokBad = none)
    (hgood : decodeToken tokGood = some ch)
    (hts : jsonNumField ch (ascii "timestamp") = some ts)
    (hexp : (now : ℚ) - ts > 300000) :
    verifyHandler (some tokBad) now ua af osf geo rGeo rConf rSucc =
      .err 400 "Invalid token" "Challenge token is malformed" ∧
    verifyHandler (some tokGood) now ua af osf geo rGeo rConf rSucc =
      .err 400 "Token expired" "Challenge token has expired" := by
  constructor
  · simp [verifyHandler, hbad]
  · have hdec : decide ((now : ℚ) - ts > 300000) = true := decide_eq_true hexp
    simp [verifyHandler, hgood, hts, hdec]

/-- Witness for C2 at a junk token and a 300 001 ms old challenge. -/
theorem c2_verify_rejections_witness :
    decodeToken [33] = none ∧
    decodeToken (encodeChallengeToken
        ⟨ascii "w3", 0, ascii "medium", ascii "checkbox"⟩) =
      some (challengeJson ⟨ascii "w3", 0, ascii "medium", ascii "checkbox"⟩) ∧
    jsonNumField (challengeJson ⟨ascii "w3", 0, ascii "medium", ascii "checkbox"⟩)
        (ascii "timestamp") = some (((0 : Int) : ℚ)) ∧
    ((300001 : Int) : ℚ) - ((0 : Int) : ℚ) > 300000 ∧
    (verifyHandler (some [33]) 300001 "ua" "af" "osf" none 0 0 0 =
      .err 400 "Invalid token" "Challenge token is malformed" ∧
    verifyHandler (some (encodeChallengeToken
        ⟨ascii "w3", 0, ascii "medium", ascii "checkbox"⟩)) 300001
        "ua" "af" "osf" none 0 0 0 =
      .err 400 "Token expired" "Challenge token has expired") :=
  have hgood := decodeToken_encode ⟨ascii "w3", 0, ascii "medium", ascii "checkbox"⟩
    (by decide) (by decide) (by decide)
  have hexp : ((300001 : Int) : ℚ) - ((0 : Int) : ℚ) > 300000 := by norm_num
  ⟨rfl, hgood, rfl, hexp,
    c2_verify_rejections [33] _ 300001 _ (((0 : Int) : ℚ)) "ua" "af" "osf" none 0 0 0
      rfl hgood rfl hexp⟩

end DefendAMinecraft
